import Mathlib

/-!
Verification development for the amaran-ai pipeline core
(backend/app: pipeline.py, agents/research_agent.py, agents/director_agent.py,
agents/visual_audio_agent.py, models/schemas.py).

The Python source is shallowly embedded: pure string algorithms become Lean
functions on `List Char`, Python's `json.loads` (strict mode) is modelled by
an executable fuel-based parser, exceptions become `Except` values, and the
LLM / image / video backends become explicit oracle parameters together with
call counters.
-/

namespace Amaran

/-! ## Python string primitives -/

/-- Whitespace accepted by `json.loads` between tokens: space, tab, LF, CR. -/
def jsonWsChar (c : Char) : Bool :=
  c = ' ' || c = '\t' || c = '\n' || c = '\r'

/-- Characters stripped by Python `str.strip()`: `' \t\n\r\x0b\x0c'`. -/
def pyStripChar (c : Char) : Bool :=
  c = ' ' || c = '\t' || c = '\n' || c = '\r' ||
  c = Char.ofNat 0x0b || c = Char.ofNat 0x0c

/-- Characters matched by the regex class `\s`: `[ \t\n\r\f\v]`. -/
def pySpaceChar (c : Char) : Bool :=
  c = ' ' || c = '\t' || c = '\n' || c = '\r' ||
  c = Char.ofNat 0x0c || c = Char.ofNat 0x0b

def dropWhileB (p : Char → Bool) : List Char → List Char
  | [] => []
  | c :: cs => if p c then dropWhileB p cs else c :: cs

/-- `str.strip()` on a char list. -/
def pyStripL (cs : List Char) : List Char :=
  ((dropWhileB pyStripChar cs).reverse |> dropWhileB pyStripChar).reverse

def pyStrip (s : String) : String := String.mk (pyStripL s.toList)

/-- Boolean list-infix test: `pat` occurs contiguously inside `hay`. -/
def listContains (hay pat : List Char) : Bool :=
  (List.range (hay.length + 1)).any fun i => pat.isPrefixOf (hay.drop i)

/-- Python `pat in hay` on strings. -/
def strContains (hay pat : String) : Bool :=
  listContains hay.toList pat.toList

/-- Python `str.lower()` (ASCII behaviour). -/
def pyLower (s : String) : String := String.mk (s.toList.map Char.toLower)

/-! ## JSON values and a model of Python `json.loads` (strict mode) -/

inductive JVal where
  | jnull
  | jbool (b : Bool)
  | jnum (lit : String)
  | jstr (s : String)
  | jarr (items : List JVal)
  | jobj (fields : List (String × JVal))

namespace JVal

/-- `data.get(key)` on a parsed JSON object (last occurrence wins, as in
Python dicts built by the decoder). -/
def getField (v : JVal) (key : String) : Option JVal :=
  match v with
  | .jobj fields => (fields.reverse.find? fun kv => kv.1 = key).map Prod.snd
  | _ => none

def asStr : JVal → Option String
  | .jstr s => some s
  | _ => none

def asStrList : JVal → Option (List String)
  | .jarr items =>
      items.foldr (fun it acc =>
        match it, acc with
        | .jstr s, some l => some (s :: l)
        | _, _ => none) (some [])
  | _ => none

end JVal

/-- Single-character escapes accepted inside JSON string literals. -/
def jsonEscChar : Char → Option Char
  | '"' => some '"'
  | '\\' => some '\\'
  | '/' => some '/'
  | 'b' => some (Char.ofNat 0x08)
  | 'f' => some (Char.ofNat 0x0c)
  | 'n' => some '\n'
  | 'r' => some '\r'
  | 't' => some '\t'
  | _ => none

def hexVal (c : Char) : Option Nat :=
  if '0' ≤ c ∧ c ≤ '9' then some (c.toNat - '0'.toNat)
  else if 'a' ≤ c ∧ c ≤ 'f' then some (c.toNat - 'a'.toNat + 10)
  else if 'A' ≤ c ∧ c ≤ 'F' then some (c.toNat - 'A'.toNat + 10)
  else none

/-- Parse the body of a JSON string literal (after the opening quote), in
strict mode: raw control characters (code point < 0x20) are rejected, exactly
the standard escapes are accepted. Returns the decoded chars and the rest. -/
def parseStrChars : List Char → Option (List Char × List Char)
  | [] => none
  | c :: rest =>
    if c = '"' then some ([], rest)
    else if c = '\\' then
      match rest with
      | [] => none
      | e :: rest2 =>
        if e = 'u' then
          match rest2 with
          | h1 :: h2 :: h3 :: h4 :: rest3 =>
            match hexVal h1, hexVal h2, hexVal h3, hexVal h4 with
            | some a, some b, some c3, some d =>
              (parseStrChars rest3).map fun (s, r) =>
                (Char.ofNat (((a * 16 + b) * 16 + c3) * 16 + d) :: s, r)
            | _, _, _, _ => none
          | _ => none
        else
          match jsonEscChar e with
          | some ec => (parseStrChars rest2).map fun (s, r) => (ec :: s, r)
          | none => none
    else if c.toNat < 0x20 then none
    else (parseStrChars rest).map fun (s, r) => (c :: s, r)

def takeDigits : List Char → List Char × List Char
  | [] => ([], [])
  | c :: cs =>
    if c.isDigit then
      let (d, r) := takeDigits cs
      (c :: d, r)
    else ([], c :: cs)

/-- JSON number per `json.decoder.NUMBER_RE`:
`(-?(?:0|[1-9]\d*))(\.\d+)?([eE][-+]?\d+)?`. Returns the lexeme. -/
def parseNumber (cs : List Char) : Option (List Char × List Char) :=
  let (sign, cs1) :=
    match cs with
    | '-' :: r => (['-'], r)
    | _ => (([] : List Char), cs)
  match cs1 with
  | [] => none
  | c :: rest =>
    if ¬ c.isDigit then none
    else
      let (intPart, cs2) :=
        if c = '0' then ([c], rest)
        else
          let (d, r) := takeDigits rest
          (c :: d, r)
      let (fracPart, cs3) :=
        match cs2 with
        | '.' :: r =>
          let (d, r2) := takeDigits r
          if d.isEmpty then (([] : List Char), cs2) else ('.' :: d, r2)
        | _ => ([], cs2)
      let (expPart, cs4) :=
        match cs3 with
        | e :: r =>
          if e = 'e' ∨ e = 'E' then
            let (sgn, r1) :=
              match r with
              | s :: r2 => if s = '+' ∨ s = '-' then ([s], r2) else (([] : List Char), r)
              | [] => ([], r)
            let (d, r2) := takeDigits r1
            if d.isEmpty then (([] : List Char), cs3) else (e :: (sgn ++ d), r2)
          else ([], cs3)
        | [] => ([], cs3)
      some (sign ++ intPart ++ fracPart ++ expPart, cs4)

/-- Parser modes: a plain value, the items of an array being accumulated, or
the members of an object being accumulated. -/
inductive PMode where
  | value
  | arr (acc : List JVal)
  | obj (acc : List (String × JVal))

/-- Fuel-based JSON parser faithful to `json.loads` for the constructs the
repository exercises (strict strings, no trailing commas, `null`/`true`/
`false`, numbers, nested arrays/objects). -/
def parseJ : Nat → PMode → List Char → Option (JVal × List Char)
  | 0, _, _ => none
  | fuel + 1, .value, cs =>
    match cs with
    | 'n' :: 'u' :: 'l' :: 'l' :: rest => some (.jnull, rest)
    | 't' :: 'r' :: 'u' :: 'e' :: rest => some (.jbool true, rest)
    | 'f' :: 'a' :: 'l' :: 's' :: 'e' :: rest => some (.jbool false, rest)
    | '"' :: rest =>
      (parseStrChars rest).map fun (s, r) => (.jstr (String.mk s), r)
    | '[' :: rest =>
      (match dropWhileB jsonWsChar rest with
       | ']' :: rest2 => some (.jarr [], rest2)
       | r => parseJ fuel (.arr []) r)
    | '{' :: rest =>
      (match dropWhileB jsonWsChar rest with
       | '}' :: rest2 => some (.jobj [], rest2)
       | r => parseJ fuel (.obj []) r)
    | _ =>
      (parseNumber cs).map fun (lit, r) => (.jnum (String.mk lit), r)
  | fuel + 1, .arr acc, cs =>
    match parseJ fuel .value cs with
    | none => none
    | some (v, rest) =>
      match dropWhileB jsonWsChar rest with
      | ',' :: rest2 => parseJ fuel (.arr (acc ++ [v])) (dropWhileB jsonWsChar rest2)
      | ']' :: rest2 => some (.jarr (acc ++ [v]), rest2)
      | _ => none
  | fuel + 1, .obj acc, cs =>
    match cs with
    | '"' :: rest =>
      (match parseStrChars rest with
       | none => none
       | some (k, rest1) =>
         match dropWhileB jsonWsChar rest1 with
         | ':' :: rest2 =>
           (match parseJ fuel .value (dropWhileB jsonWsChar rest2) with
            | none => none
            | some (v, rest3) =>
              match dropWhileB jsonWsChar rest3 with
              | ',' :: rest4 =>
                parseJ fuel (.obj (acc ++ [(String.mk k, v)])) (dropWhileB jsonWsChar rest4)
              | '}' :: rest4 => some (.jobj (acc ++ [(String.mk k, v)]), rest4)
              | _ => none)
         | _ => none)
    | _ => none

/-- Model of Python `json.loads` in its default strict mode: parse one value,
allow surrounding whitespace, reject trailing data. `none` models a raised
`json.JSONDecodeError`. -/
def jsonLoads (s : String) : Option JVal :=
  let cs := dropWhileB jsonWsChar s.toList
  match parseJ (2 * cs.length + 8) .value cs with
  | some (v, rest) =>
    if (dropWhileB jsonWsChar rest).isEmpty then some v else none
  | none => none

/-! ## Generic regex-flavoured helpers used by the extractors -/

/-- Leftmost non-overlapping replacement, Python `str.replace(pat, rep)`
(for non-empty `pat`). Fuel is the length of the scanned list. -/
def pyReplaceFuel (pat rep : List Char) : Nat → List Char → List Char
  | 0, cs => cs
  | _, [] => []
  | fuel + 1, c :: rest =>
    if pat ≠ [] ∧ pat.isPrefixOf (c :: rest) then
      rep ++ pyReplaceFuel pat rep fuel ((c :: rest).drop pat.length)
    else
      c :: pyReplaceFuel pat rep fuel rest

def pyReplaceL (cs pat rep : List Char) : List Char :=
  pyReplaceFuel pat rep cs.length cs

def pyReplace (s pat rep : String) : String :=
  String.mk (pyReplaceL s.toList pat.toList rep.toList)

/-- Try a matcher at every start position, left to right (`re.search`). -/
def searchSuffixes (f : List Char → Option α) : List Char → Option α
  | [] => f []
  | c :: rest =>
    match f (c :: rest) with
    | some v => some v
    | none => searchSuffixes f rest

def matchLit (lit cs : List Char) : Option (List Char) :=
  if lit.isPrefixOf cs then some (cs.drop lit.length) else none

/-- Maximal munch for `(?:[^"\\]|\\.)*`: the regex-capture body of a quoted
JSON-ish string. Returns (captured chars as written, rest). -/
def munchField : List Char → List Char × List Char
  | [] => ([], [])
  | '\\' :: c2 :: rest =>
    let (a, r) := munchField rest
    ('\\' :: c2 :: a, r)
  | '"' :: rest => ([], '"' :: rest)
  | c :: rest =>
    let (a, r) := munchField rest
    (c :: a, r)

/-! ## ResearchAgent._extract_json and helpers (research_agent.py) -/

/-- Fence stripping of `_extract_json` strategy 1: strip, drop a leading
```` ```json ```` or ```` ``` ````, drop a trailing ```` ``` ````, strip. -/
def stripFencesResearch (s : String) : String :=
  let cleaned := pyStripL s.toList
  let cleaned :=
    if ("```json".toList).isPrefixOf cleaned then cleaned.drop 7 else cleaned
  let cleaned :=
    if ("```".toList).isPrefixOf cleaned then cleaned.drop 3 else cleaned
  let cleaned :=
    if ("```".toList).isSuffixOf cleaned then cleaned.take (cleaned.length - 3)
    else cleaned
  String.mk (pyStripL cleaned)

/-- `re.search(r'\{[\s\S]*\}', text)`: greedy span from the first `{` to the
last `}` (provided the `}` comes after the `{`). No brace matching and no
string-literal awareness. -/
def regexBraceSpan (cs : List Char) : Option (List Char) :=
  match cs.findIdx? (· = '{') with
  | none => none
  | some i =>
    match cs.reverse.findIdx? (· = '}') with
    | none => none
    | some rj =>
      let j := cs.length - 1 - rj
      if i < j then some ((cs.drop i).take (j - i + 1)) else none

/-- One pass of `re.sub(r',\s*([}\]])', r'\1', text)`: a comma followed by
whitespace and a closing bracket is replaced by just the bracket. -/
def subTrailingCommaR : Nat → List Char → List Char
  | 0, cs => cs
  | _, [] => []
  | fuel + 1, c :: rest =>
    if c = ',' then
      match dropWhileB pySpaceChar rest with
      | c2 :: rest2 =>
        if c2 = '}' ∨ c2 = ']' then c2 :: subTrailingCommaR fuel rest2
        else c :: subTrailingCommaR fuel rest
      | [] => c :: subTrailingCommaR fuel rest
    else c :: subTrailingCommaR fuel rest

/-- BOM / zero-width character removal of `_fix_json`. -/
def removeZeroWidth (cs : List Char) : List Char :=
  cs.filter fun c =>
    ¬ (c = Char.ofNat 0xfeff ∨ c = Char.ofNat 0x200b ∨
       c = Char.ofNat 0x200c ∨ c = Char.ofNat 0x200d)

/-- Escape map of `_fix_json` for control characters inside strings:
`\n`, `\r`, `\t`, `\b`, `\f`, otherwise `\u00xx`. -/
def escCtrl (c : Char) : List Char :=
  if c = '\n' then ['\\', 'n']
  else if c = '\r' then ['\\', 'r']
  else if c = '\t' then ['\\', 't']
  else if c = Char.ofNat 0x08 then ['\\', 'b']
  else if c = Char.ofNat 0x0c then ['\\', 'f']
  else
    let hexDigit (n : Nat) : Char :=
      if n < 10 then Char.ofNat ('0'.toNat + n) else Char.ofNat ('a'.toNat + n - 10)
    ['\\', 'u', '0', '0', hexDigit (c.toNat / 16), hexDigit (c.toNat % 16)]

/-- The character walk of `ResearchAgent._fix_json`, faithful to the Python
loop: `prev` is the previous character of the ORIGINAL text (`text[i-1]`),
an in-string backslash consumes the following character verbatim, a quote
toggles `in_string` unless preceded by a backslash, and control characters
inside strings are escaped. -/
def fixJsonWalk (inStr : Bool) (prev : Option Char) : List Char → List Char
  | [] => []
  | c :: rest =>
    if c = '\\' ∧ inStr = true ∧ rest ≠ [] then
      match rest with
      | c2 :: rest2 => c :: c2 :: fixJsonWalk inStr (some c2) rest2
      | [] => [c]
    else if c = '"' ∧ prev ≠ some '\\' then
      c :: fixJsonWalk (!inStr) (some c) rest
    else if inStr ∧ c.toNat < 32 then
      escCtrl c ++ fixJsonWalk inStr (some c) rest
    else
      c :: fixJsonWalk inStr (some c) rest

/-- `ResearchAgent._fix_json`: trailing-comma sub (which also drops the
whitespace before the bracket), zero-width removal, then the control-character
walk. -/
def fixJson (s : String) : String :=
  let t := subTrailingCommaR s.toList.length s.toList
  let t := removeZeroWidth t
  String.mk (fixJsonWalk false none t)

/-- Reference behaviour of the control-character repair on backslash-free
text: `in_string` is exact quote parity and every in-string control
character is escaped. On text containing backslashes `fixJsonWalk` can
deviate from this (its `text[i-1]` quote check mis-toggles at a closing
quote preceded by an escaped backslash). -/
def fixJsonSpecWalk (inStr : Bool) : List Char → List Char
  | [] => []
  | c :: rest =>
    if c = '"' then c :: fixJsonSpecWalk (!inStr) rest
    else if inStr ∧ c.toNat < 32 then escCtrl c ++ fixJsonSpecWalk inStr rest
    else c :: fixJsonSpecWalk inStr rest

/-- `extract_field` pattern 1 at one position:
`"name"\s*:\s*"((?:[^"\\]|\\.)*)"`. Returns the raw capture. -/
def fieldPat1At (name : List Char) (cs : List Char) : Option (List Char) :=
  match matchLit ('"' :: (name ++ ['"'])) cs with
  | none => none
  | some r1 =>
    match dropWhileB pySpaceChar r1 with
    | ':' :: r3 =>
      (match dropWhileB pySpaceChar r3 with
       | '"' :: r5 =>
         let (cap, r6) := munchField r5
         (match r6 with
          | '"' :: _ => some cap
          | _ => none)
       | _ => none)
    | _ => none

/-- Lazy capture of `"(.*?)"\s*[,}]` (DOTALL): the shortest prefix whose
closing quote is followed by optional whitespace and a `,` or `}`; a quote
failing that lookahead is swallowed into the capture. -/
def pat2Capture : List Char → Option (List Char)
  | [] => none
  | c :: rest =>
    if c = '"' then
      match dropWhileB pySpaceChar rest with
      | c2 :: _ =>
        if c2 = ',' ∨ c2 = '}' then some []
        else (pat2Capture rest).map (c :: ·)
      | [] => (pat2Capture rest).map (c :: ·)
    else (pat2Capture rest).map (c :: ·)

/-- `extract_field` pattern 2 at one position:
`"name"\s*:\s*"(.*?)"\s*[,}]` with `re.DOTALL`. -/
def fieldPat2At (name : List Char) (cs : List Char) : Option (List Char) :=
  match matchLit ('"' :: (name ++ ['"'])) cs with
  | none => none
  | some r1 =>
    match dropWhileB pySpaceChar r1 with
    | ':' :: r3 =>
      (match dropWhileB pySpaceChar r3 with
       | '"' :: r5 => pat2Capture r5
       | _ => none)
    | _ => none

/-- `extract_field` of `_repair_json_string`: try pattern 1 (unescaping `\n`
to a space and `\"` to a quote), then pattern 2 (mapping raw newlines to
spaces and quotes to apostrophes), then the fallback. -/
def extractField (text : List Char) (name : String) (fallback : String) : String :=
  match searchSuffixes (fieldPat1At name.toList) text with
  | some cap =>
    pyReplace (pyReplace (String.mk cap) "\\n" " ") "\\\"" "\""
  | none =>
    match searchSuffixes (fieldPat2At name.toList) text with
    | some cap =>
      let q : String := String.mk ['\'']
      pyReplace (pyReplace (String.mk cap) "\n" " ") "\"" q
    | none => fallback

/-- Lazy capture of `\[(.*?)\]`: everything up to the first `]`. -/
def arrCapture : List Char → Option (List Char)
  | [] => none
  | c :: rest =>
    if c = ']' then some []
    else (arrCapture rest).map (c :: ·)

/-- `extract_array` pattern at one position: `"name"\s*:\s*\[(.*?)\]`. -/
def arrPatAt (name : List Char) (cs : List Char) : Option (List Char) :=
  match matchLit ('"' :: (name ++ ['"'])) cs with
  | none => none
  | some r1 =>
    match dropWhileB pySpaceChar r1 with
    | ':' :: r3 =>
      (match dropWhileB pySpaceChar r3 with
       | '[' :: r5 => arrCapture r5
       | _ => none)
    | _ => none

/-- `re.findall(r'"((?:[^"\\]|\\.)*)"', body)`: all non-overlapping quoted
captures, scanning left to right. -/
def findAllQuoted : Nat → List Char → List (List Char)
  | 0, _ => []
  | _, [] => []
  | fuel + 1, c :: rest =>
    if c = '"' then
      let (cap, r) := munchField rest
      match r with
      | '"' :: r2 => cap :: findAllQuoted fuel r2
      | _ => findAllQuoted fuel rest
    else findAllQuoted fuel rest

/-- `extract_array` of `_repair_json_string`. -/
def extractArray (text : List Char) (name : String) : List String :=
  match searchSuffixes (arrPatAt name.toList) text with
  | some body => (findAllQuoted body.length body).map String.mk
  | none => []

/-- An optional string produced by the `extract_field(name, "") or None`
idiom: an empty extraction becomes `null`. -/
def fieldOrNull (text : List Char) (name : String) : JVal :=
  let v := extractField text name ""
  if v = "" then JVal.jnull else JVal.jstr v

/-- `ResearchAgent._repair_json_string`: last-resort regex field extraction.
It is total — every field falls back to a hardcoded placeholder default. -/
def repairJsonString (s : String) : JVal :=
  let text := s.toList
  JVal.jobj
    [ ("scam_name", .jstr (extractField text "scam_name" "Unknown Scam")),
      ("story_hook", .jstr (extractField text "story_hook" "Details unavailable.")),
      ("red_flag", .jstr (extractField text "red_flag" "Be cautious of suspicious requests.")),
      ("the_fix", .jstr (extractField text "the_fix" "Contact authorities immediately.")),
      ("reference_sources", .jarr ((extractArray text "reference_sources").map JVal.jstr)),
      ("category", .jstr (extractField text "category" "Other")),
      ("global_ancestry", fieldOrNull text "global_ancestry"),
      ("psychological_exploit", fieldOrNull text "psychological_exploit"),
      ("victim_profile", fieldOrNull text "victim_profile"),
      ("counter_hack", fieldOrNull text "counter_hack") ]

/-- Strategies 4–5 of `_extract_json`: fix the full cleaned text and parse,
else fall back to regex field extraction. -/
def researchStrat45 (cleaned : String) : JVal :=
  match jsonLoads (fixJson cleaned) with
  | some v => v
  | none => repairJsonString cleaned

/-- `ResearchAgent._extract_json`: the five strategies, each tried only when
the previous parse attempt failed. Total: strategy 5 always yields a dict. -/
def researchExtractJson (response : String) : JVal :=
  let cleaned := stripFencesResearch response
  match jsonLoads cleaned with
  | some v => v
  | none =>
    match regexBraceSpan cleaned.toList with
    | some spanL =>
      let jsonStr := String.mk spanL
      (match jsonLoads jsonStr with
       | some v => v
       | none =>
         match jsonLoads (fixJson jsonStr) with
         | some v => v
         | none => researchStrat45 cleaned)
    | none => researchStrat45 cleaned

/-! ## Exceptions, enums and schema records (models/schemas.py) -/

/-- Python exception kinds relevant to the embedded control flow. -/
inductive ExnKind where
  | valueError
  | keyError
  | jsonDecodeError
  | typeError
  | runtimeError
  | other
deriving DecidableEq

/-- A Python exception value; `msg` models `str(e)`. -/
structure PyExn where
  kind : ExnKind
  msg : String
deriving DecidableEq

inductive ScamCategoryL where
  | digitalArrest
  | impersonation
  | phishing
  | bankingFraud
  | loveScam
  | investmentScam
  | parcelScam
  | jobScam
  | eCommerce
  | otherCat
deriving DecidableEq

inductive LanguageL where
  | malay
  | malayUrban
  | english
  | chineseMandarin
  | chineseCantonese
  | tamil
deriving DecidableEq

inductive PStatusL where
  | pending
  | inProgress
  | completed
  | failed
  | awaitingReview
deriving DecidableEq

/-- `ResearchAgent._map_category`: lowercase lookup in a fixed map with
`ScamCategory.OTHER` as the default. -/
def mapCategory (categoryStr : String) : ScamCategoryL :=
  let l := pyLower categoryStr
  if l = "digital arrest" then .digitalArrest
  else if l = "impersonation" then .impersonation
  else if l = "phishing" then .phishing
  else if l = "banking fraud" then .bankingFraud
  else if l = "love scam" then .loveScam
  else if l = "investment scam" then .investmentScam
  else if l = "parcel/delivery scam" then .parcelScam
  else if l = "parcel scam" then .parcelScam
  else if l = "delivery scam" then .parcelScam
  else if l = "job scam" then .jobScam
  else if l = "e-commerce scam" then .eCommerce
  else if l = "e-commerce" then .eCommerce
  else .otherCat

/-- `FactSheet` (schemas.py). Timestamps are abstract `Nat` instants. -/
structure FactSheetL where
  scam_name : String
  story_hook : String
  red_flag : String
  the_fix : String
  reference_sources : List String := []
  category : ScamCategoryL
  verified_by_officer : Bool := false
  verification_timestamp : Option Nat := none
  officer_notes : Option String := none
  global_ancestry : Option String := none
  psychological_exploit : Option String := none
  victim_profile : Option String := none
  counter_hack : Option String := none
deriving DecidableEq

/-- `FactSheet.verify(officer_id, notes)`: `model_copy` setting
`verified_by_officer`, `verification_timestamp` (the current instant `now`)
and `officer_notes`. The Python method only logs `officer_id`; it stores it
nowhere on the returned record. -/
def FactSheetL.verify (fs : FactSheetL) (officer_id : String)
    (notes : Option String) (now : Nat) : FactSheetL :=
  let _ := officer_id
  { fs with
    verified_by_officer := true
    verification_timestamp := some now
    officer_notes := notes }

/-- `IntakeInput` (the fields the embedded control flow reads). -/
structure IntakeL where
  source_type : String
  content : String
  additional_context : Option String := none
  officer_id : Option String := none
deriving DecidableEq

/-- `AgentResult` (agents/base.py); `execution_time_ms` is not modelled
(wall-clock time), `timestamp` likewise. -/
structure AgentResultL (α : Type) where
  success : Bool
  output : Option α := none
  error : Option String := none
  model_used : String
  tokens_used : Option Nat := none

/-- `DirectorOutput` (schemas.py): `scene_breakdown` is `List[Dict[str, Any]]`,
kept as parsed JSON values. -/
structure DirectorOutputL where
  project_id : String
  master_script : String
  scene_breakdown : List JVal
  creative_notes : Option String := none
  primary_language : LanguageL

/-- Python truthiness of a JSON-decoded value (`if data.get(...):`). The
numeric case approximates `float`/`int` truthiness: a literal is falsy when
its mantissa has no nonzero digit. -/
def pyTruthy : JVal → Bool
  | .jnull => false
  | .jbool b => b
  | .jnum lit =>
    ((lit.toList.takeWhile fun c => c ≠ 'e' ∧ c ≠ 'E').any fun c =>
      '1' ≤ c ∧ c ≤ '9')
  | .jstr s => s ≠ ""
  | .jarr items => !items.isEmpty
  | .jobj fields => !fields.isEmpty

/-! ## ResearchAgent.parse_response and ResearchAgent.process -/

/-- Required-field lookup used by `parse_response`: a missing key raises
`KeyError`, which the handler rewraps as
`ValueError(f"Missing required field in response: {e}")`; a non-string value
fails pydantic validation (uncaught there, so a non-ValueError kind). -/
def getRequiredStr (data : JVal) (name : String) : Except PyExn String :=
  match data.getField name with
  | none =>
    .error ⟨.valueError,
      "Missing required field in response: " ++ String.mk ('\'' :: (name.toList ++ ['\'']))⟩
  | some (.jstr s) => .ok s
  | some _ => .error ⟨.other, "validation error: " ++ name⟩

/-- Optional deep-research field: included only when `data.get(name)` is
truthy; a truthy non-string fails pydantic validation. -/
def getOptionalStr (data : JVal) (name : String) : Except PyExn (Option String) :=
  match data.getField name with
  | none => .ok none
  | some v =>
    if pyTruthy v then
      match v with
      | .jstr s => .ok (some s)
      | _ => .error ⟨.other, "validation error: " ++ name⟩
    else .ok none

/-- `ResearchAgent.parse_response`: extract the JSON dict, map the category,
build the `FactSheet` with `verified_by_officer=False`. `_extract_json` is
total, so the only failure sources are a non-dict result, missing required
fields, or pydantic validation. -/
def parseResponseResearch (response : String) : Except PyExn FactSheetL := do
  let data := researchExtractJson response
  match data with
  | .jobj _ =>
    let categoryStr ←
      match data.getField "category" with
      | none => Except.ok "Other"
      | some (.jstr s) => Except.ok s
      | some _ => Except.error ⟨.other, "category is not a string"⟩
    let scamName ← getRequiredStr data "scam_name"
    let storyHook ← getRequiredStr data "story_hook"
    let redFlag ← getRequiredStr data "red_flag"
    let theFix ← getRequiredStr data "the_fix"
    let refs ←
      match data.getField "reference_sources" with
      | none => Except.ok ([] : List String)
      | some v =>
        match v.asStrList with
        | some l => Except.ok l
        | none => Except.error ⟨.other, "validation error: reference_sources"⟩
    let ga ← getOptionalStr data "global_ancestry"
    let pe ← getOptionalStr data "psychological_exploit"
    let vp ← getOptionalStr data "victim_profile"
    let ch ← getOptionalStr data "counter_hack"
    return { scam_name := scamName
             story_hook := storyHook
             red_flag := redFlag
             the_fix := theFix
             reference_sources := refs
             category := mapCategory categoryStr
             verified_by_officer := false
             global_ancestry := ga
             psychological_exploit := pe
             victim_profile := vp
             counter_hack := ch }
  | _ => .error ⟨.typeError, "response JSON is not an object"⟩

/-- `ResearchAgent.validate_input`: content non-empty and at least 10 chars
after stripping. -/
def validateIntake (i : IntakeL) : Bool :=
  ¬ (i.content = "" ∨ (pyStrip i.content).length < 10)

/-- The `try` body of `ResearchAgent.process`. The LLM call (Deep Research
or grounded generation) is abstracted by its outcome `llmOutcome`; a raised
exception is an `Except.error`. -/
def researchProcessBody (input : IntakeL) (modelInfo : String)
    (llmOutcome : Except PyExn String) : Except PyExn (AgentResultL FactSheetL) := do
  if ¬ validateIntake input then
    return { success := false, error := some "Invalid input data", model_used := modelInfo }
  let response ← llmOutcome
  let factSheet ← parseResponseResearch response
  return { success := true, output := some factSheet, model_used := modelInfo }

/-- `ResearchAgent.process`: the whole body runs inside
`try ... except Exception as e: return AgentResult(success=False, error=str(e))`,
so the function is total — it returns an `AgentResult` for every outcome. -/
def researchProcess (input : IntakeL) (modelInfo : String)
    (llmOutcome : Except PyExn String) : AgentResultL FactSheetL :=
  match researchProcessBody input modelInfo llmOutcome with
  | .ok r => r
  | .error e => { success := false, error := some e.msg, model_used := modelInfo }

/-! ## DirectorAgent extraction, parsing and process -/

/-- Fence stripping of `_extract_json_from_response`: strip, drop a leading
```` ```json ```` or (`elif`) ```` ``` ````, drop a trailing ```` ``` ````,
strip. -/
def stripFencesDirector (s : String) : List Char :=
  let cleaned := pyStripL s.toList
  let cleaned :=
    if ("```json".toList).isPrefixOf cleaned then cleaned.drop 7
    else if ("```".toList).isPrefixOf cleaned then cleaned.drop 3
    else cleaned
  let cleaned :=
    if ("```".toList).isSuffixOf cleaned then cleaned.take (cleaned.length - 3)
    else cleaned
  pyStripL cleaned

/-- The brace loop of `_extract_json_from_response`, started at the first
`{`: a plain depth counter incremented at every `{` and decremented at every
`}` — including braces inside string literals. Returns the prefix up to and
including the brace where the counter returns to zero, or `none` if the
counter never does. -/
def naiveBraceScan (count : Int) : List Char → Option (List Char)
  | [] => none
  | c :: rest =>
    if c = '{' then (naiveBraceScan (count + 1) rest).map (c :: ·)
    else if c = '}' then
      (if count - 1 = 0 then some [c]
       else (naiveBraceScan (count - 1) rest).map (c :: ·))
    else (naiveBraceScan count rest).map (c :: ·)

/-- `DirectorAgent._extract_json_from_response`. -/
def directorExtractJsonFromResponse (s : String) : String :=
  let cleaned := stripFencesDirector s
  match cleaned.findIdx? (· = '{') with
  | none => String.mk cleaned
  | some i =>
    let tail := cleaned.drop i
    match naiveBraceScan 0 tail with
    | some pre => String.mk pre
    | none => String.mk tail

/-- Director variant of the trailing-comma sub, `re.sub(r',(\s*[}\]])', r'\1')`:
the whitespace is inside the group, so it is kept. -/
def subTrailingCommaD : Nat → List Char → List Char
  | 0, cs => cs
  | _, [] => []
  | fuel + 1, c :: rest =>
    if c = ',' then
      let ws := rest.takeWhile pySpaceChar
      match dropWhileB pySpaceChar rest with
      | c2 :: rest2 =>
        if c2 = '}' ∨ c2 = ']' then ws ++ c2 :: subTrailingCommaD fuel rest2
        else c :: subTrailingCommaD fuel rest
      | [] => c :: subTrailingCommaD fuel rest
    else c :: subTrailingCommaD fuel rest

/-- The newline walk of `_fix_truncated_json`: proper `escaped` tracking;
only raw `\n` inside strings is escaped (tabs and other control characters
are left as they are). -/
def fixTruncWalk (inStr escaped : Bool) : List Char → List Char
  | [] => []
  | c :: rest =>
    if escaped then c :: fixTruncWalk inStr false rest
    else if c = '\\' then c :: fixTruncWalk inStr true rest
    else if c = '"' then c :: fixTruncWalk (!inStr) false rest
    else if inStr ∧ c = '\n' then '\\' :: 'n' :: fixTruncWalk inStr false rest
    else c :: fixTruncWalk inStr false rest

/-- The quote-parity walk of `_fix_truncated_json`: final `in_string` flag. -/
def quoteParity (inStr escaped : Bool) : List Char → Bool
  | [] => inStr
  | c :: rest =>
    if escaped then quoteParity inStr false rest
    else if c = '\\' then quoteParity inStr true rest
    else if c = '"' then quoteParity (!inStr) false rest
    else quoteParity inStr false rest

/-- `DirectorAgent._fix_truncated_json`: trailing-comma sub, newline walk,
then close an unterminated string and append the missing `]`/`}` balance
(`'x' * n` is empty for non-positive `n`). -/
def fixTruncatedJson (s : String) : String :=
  let t := subTrailingCommaD s.toList.length s.toList
  let t := fixTruncWalk false false t
  let openBraces : Int := (t.count '{' : Int) - (t.count '}' : Int)
  let openBrackets : Int := (t.count '[' : Int) - (t.count ']' : Int)
  let t := if quoteParity false false t then t ++ ['"'] else t
  let t := t ++ List.replicate openBrackets.toNat ']' ++ List.replicate openBraces.toNat '}'
  String.mk t

/-- Pydantic validation of `scene_breakdown : List[Dict[str, Any]]`. -/
def asDictList : JVal → Option (List JVal)
  | .jarr items =>
    items.foldr (fun it acc =>
      match it, acc with
      | .jobj fs, some l => some (.jobj fs :: l)
      | _, _ => none) (some [])
  | _ => none

/-- The record-building tail of `DirectorAgent.parse_response`: required
fields with `KeyError` rewrapped as `ValueError`, pydantic validation of the
scene list and notes. -/
def directorBuild (data : JVal) (primaryLanguage : LanguageL) :
    Except PyExn DirectorOutputL := do
  match data with
  | .jobj _ =>
    let projectId ← getRequiredStr data "project_id"
    let masterScript ← getRequiredStr data "master_script"
    let sceneBreakdown ←
      match data.getField "scene_breakdown" with
      | none =>
        Except.error ⟨.valueError,
          "Missing required field in response: " ++ String.mk ('\'' :: ("scene_breakdown".toList ++ ['\'']))⟩
      | some v =>
        match asDictList v with
        | some l => Except.ok l
        | none => Except.error ⟨.other, "validation error: scene_breakdown"⟩
    let creativeNotes ←
      match data.getField "creative_notes" with
      | none => Except.ok (none : Option String)
      | some .jnull => Except.ok none
      | some (.jstr s) => Except.ok (some s)
      | some _ => Except.error ⟨.other, "validation error: creative_notes"⟩
    return { project_id := projectId
             master_script := masterScript
             scene_breakdown := sceneBreakdown
             creative_notes := creativeNotes
             primary_language := primaryLanguage }
  | _ => .error ⟨.typeError, "response JSON is not an object"⟩

/-- `DirectorAgent.parse_response`: boundary-scan extraction, parse, on
failure repair with `_fix_truncated_json` and parse again; then build the
`DirectorOutput`. -/
def directorParseResponse (response : String) (primaryLanguage : LanguageL) :
    Except PyExn DirectorOutputL := do
  let cleaned := directorExtractJsonFromResponse response
  let data ←
    match jsonLoads cleaned with
    | some d => Except.ok d
    | none =>
      match jsonLoads (fixTruncatedJson cleaned) with
      | some d => Except.ok d
      | none =>
        Except.error ⟨.valueError, "Failed to parse Director response as JSON"⟩
  directorBuild data primaryLanguage

/-- The retry loop of `DirectorAgent.process` (`max_retries = 2`, so three
attempts). `llm n` is the outcome of the LLM call on attempt `n`; a
`ValueError` (LLM-call or parse failure) is retried while `attempt < 2`,
any other exception breaks the loop. Returns (output, last error, number of
LLM calls made). -/
def directorAttempts (llm : Nat → Except PyExn String) (lang : LanguageL) :
    Nat → Nat → Option DirectorOutputL × Option PyExn × Nat
  | _, 0 => (none, none, 0)
  | attempt, fuel + 1 =>
    match llm attempt with
    | .error e =>
      if e.kind = .valueError ∧ attempt < 2 then
        let (o, err, n) := directorAttempts llm lang (attempt + 1) fuel
        (o, err, n + 1)
      else (none, some e, 1)
    | .ok response =>
      match directorParseResponse response lang with
      | .ok out => (some out, none, 1)
      | .error e =>
        if e.kind = .valueError ∧ attempt < 2 then
          let (o, err, n) := directorAttempts llm lang (attempt + 1) fuel
          (o, err, n + 1)
        else (none, some e, 1)

/-- `DirectorAgent.process`: the verification precondition is checked before
any LLM interaction; an unverified fact sheet yields `success=False` with
zero backend calls. All exceptions inside the loop are caught, so the result
is always an `AgentResult` (paired with the number of LLM calls made). -/
def directorProcess (fs : FactSheetL) (lang : LanguageL) (modelName : String)
    (llm : Nat → Except PyExn String) : AgentResultL DirectorOutputL × Nat :=
  if ¬ fs.verified_by_officer then
    ({ success := false
       error := some "Fact Sheet must be verified by officer before script generation"
       model_used := modelName }, 0)
  else
    match directorAttempts llm lang 0 3 with
    | (some out, _, n) =>
      ({ success := true, output := some out, model_used := modelName }, n)
    | (none, some e, n) =>
      ({ success := false, error := some e.msg, model_used := modelName }, n)
    | (none, none, n) =>
      ({ success := false, error := some "None", model_used := modelName }, n)

/-! ## Remaining schema records held in PipelineState (models/schemas.py).
Enum-valued fields that no embedded branch inspects (tone, audiences,
severity, …) are carried as their string values. -/

structure AvatarConfigL where
  id : String
  name : String
  rank : Option String := none
  gender : String := "male"
  ethnicity : String := "malay"
deriving DecidableEq

structure CreatorConfigL where
  target_groups : List String
  languages : List LanguageL
  tone : String
  avatar : AvatarConfigL
  video_duration_seconds : Option Nat := none
  video_format : String := "reel"
  director_instructions : Option String := none
deriving DecidableEq

structure ScamReportL where
  title : String
  category : ScamCategoryL
  severity : String
  description : String
  story_hook : String
  red_flag : String
  the_fix : String
  source_urls : List String := []
  victims_profile : Option String := none
  financial_impact : Option String := none
deriving DecidableEq

/-- `LinguisticOutput`: translations keyed by language name, scene dicts as
parsed JSON values. -/
structure LinguisticOutputL where
  project_id : String
  translations : List (String × List JVal)
  cultural_adaptations : Option (List (String × String)) := none

structure SensitivityFlagL where
  severity : String
  issue_type : String
  description : String
  scene_id : Option Int := none
  suggested_fix : Option String := none
  regulation_reference : Option String := none
deriving DecidableEq

structure ComplianceAnalysisL where
  category : String
  status : String
  analysis : String
  elements_reviewed : List String := []
deriving DecidableEq

structure SensitivityCheckOutputL where
  project_id : String
  passed : Bool
  flags : List SensitivityFlagL := []
  compliance_summary : String
  detailed_analysis : List ComplianceAnalysisL := []
  checked_against : List String := ["MCMC Guidelines", "Sedition Act 1948", "3R Policy"]
deriving DecidableEq

structure SceneL where
  scene_id : Int
  duration_est_seconds : Int
  visual_prompt : String
  audio_script : String
  text_overlay : Option String := none
  transition : Option String := none
  background_music_mood : Option String := none
deriving DecidableEq

structure MetaDataL where
  language : LanguageL
  target_audience : String
  tone : String
  avatar : String
  video_format : String := "reel"
  total_duration_seconds : Int
deriving DecidableEq

structure VisualAudioAgentInputL where
  project_id : String
  meta_data : MetaDataL
  scenes : List SceneL
  fact_sheet_reference : Option FactSheetL := none
  sensitivity_cleared : Bool := false
deriving DecidableEq

structure MultiLanguageVideoPackageL where
  session_id : String
  scam_report : ScamReportL
  creator_config : CreatorConfigL
  video_inputs : List (String × VisualAudioAgentInputL)
  sensitivity_report : SensitivityCheckOutputL
  created_at : Nat := 0
deriving DecidableEq

structure SocialTrendAnalysisL where
  trending_topics : List String := []
  recommended_posting_time : String := ""
  content_angle : String := ""
  viral_potential : String := "low"
  trend_hooks : List String := []
  competitor_insights : String := ""
deriving DecidableEq

structure SocialCaptionOptionL where
  caption : String
  style : String := "informative"
  estimated_engagement : String := "medium"
  call_to_action : String := ""
deriving DecidableEq

structure SocialThumbnailRecommendationL where
  recommended_scene_id : Int
  thumbnail_prompt : String
  text_overlay : String := ""
  rationale : String := ""
  style_notes : String := ""
deriving DecidableEq

structure SocialHashtagStrategyL where
  primary_hashtags : List String := []
  trending_hashtags : List String := []
  niche_hashtags : List String := []
  branded_hashtags : List String := []
  total_count : Nat := 0
  hashtag_string : String := ""
deriving DecidableEq

structure SocialOfficerOutputL where
  project_id : String
  platform : String := "instagram"
  trend_analysis : SocialTrendAnalysisL
  captions : List SocialCaptionOptionL := []
  selected_caption_index : Nat := 0
  thumbnail : SocialThumbnailRecommendationL
  hashtags : SocialHashtagStrategyL
  posting_notes : String := ""
  generated_at : Nat := 0
deriving DecidableEq

/-! ## Visual/Audio pipeline state (schemas.py / visual_audio_agent.py) -/

structure ObfuscatedScamStoryL where
  title : String
  summary : String
  story : String
  character_roles : List String
  solution : String
  red_flags : List String := []
deriving DecidableEq

structure ScriptSegmentL where
  segment_index : Nat
  characters_involved : List String
  veo_prompt : String
deriving DecidableEq

structure VeoScriptL where
  title : String
  total_duration_sec : Nat
  segments : List ScriptSegmentL
deriving DecidableEq

structure CharacterDescriptionL where
  role : String
  type : String
  description_for_image_generation : String
deriving DecidableEq

structure CharacterDescriptionsL where
  characters : List CharacterDescriptionL
deriving DecidableEq

structure CharacterRefImageL where
  role : String
  description : String
  filename : String
  path : String
deriving DecidableEq

structure ClipRefEntryL where
  segment_index : Nat
  frame : String
  filename : String
  path : String
deriving DecidableEq

/-- `VeoClipEntry`; the `estimated_cost_usd : float` field is not modelled
(floating point, untouched by the orchestration logic). -/
structure VeoClipEntryL where
  segment_index : Nat
  filename : String
  path : String
deriving DecidableEq

/-- `VisualAudioPipelineState`: one slot per visual/audio sub-stage. -/
structure VAStateL where
  obfuscated_story : Option ObfuscatedScamStoryL := none
  veo_script : Option VeoScriptL := none
  character_descriptions : Option CharacterDescriptionsL := none
  character_ref_images : List CharacterRefImageL := []
  clip_ref_prompts : List JVal := []
  clip_ref_images : List ClipRefEntryL := []
  veo_clips : List VeoClipEntryL := []
  output_dir : Option String := none

/-! ## PipelineState and chat history (schemas.py) -/

structure ChatMessageL where
  role : String
  content : String
  target : String := "fact_sheet"
  timestamp : Nat := 0
deriving DecidableEq

/-- `PipelineState`: one output slot and one status per stage, plus the
chat audit log. Timestamps are abstract instants. -/
structure PStateL where
  session_id : String
  intake : Option IntakeL := none
  intake_status : PStatusL := .pending
  fact_sheet : Option FactSheetL := none
  fact_sheet_status : PStatusL := .pending
  scam_report : Option ScamReportL := none
  creator_config : Option CreatorConfigL := none
  director_output : Option DirectorOutputL := none
  director_status : PStatusL := .pending
  linguistic_output : Option LinguisticOutputL := none
  linguistic_status : PStatusL := .pending
  sensitivity_output : Option SensitivityCheckOutputL := none
  sensitivity_status : PStatusL := .pending
  video_package : Option MultiLanguageVideoPackageL := none
  visual_audio : Option VAStateL := none
  visual_audio_status : PStatusL := .pending
  social_output : Option SocialOfficerOutputL := none
  social_status : PStatusL := .pending
  chat_history : List ChatMessageL := []
  created_at : Nat := 0
  updated_at : Nat := 0

/-! ## PipelineOrchestrator stage methods (pipeline.py) -/

/-- `PipelineOrchestrator.process_intake` (with an active session): record
the intake, run the Research Agent, and commit the fact sheet only on
success; on failure only the intake status changes and a `RuntimeError` is
raised. -/
def processIntake (st : PStateL) (intake : IntakeL) (modelInfo : String)
    (llmOutcome : Except PyExn String) : PStateL × Except PyExn (Option FactSheetL) :=
  let st1 := { st with intake := some intake, intake_status := .inProgress }
  let result := researchProcess intake modelInfo llmOutcome
  if ¬ result.success then
    ({ st1 with intake_status := .failed },
     .error ⟨.runtimeError, "Research Agent failed: " ++ (result.error.getD "None")⟩)
  else
    ({ st1 with
        fact_sheet := result.output
        intake_status := .completed
        fact_sheet_status := .awaitingReview },
     .ok result.output)

/-- A `corrections` dict for `verify_fact_sheet`: optional per-field updates
applied via `model_copy(update=...)` (string fields of the fact sheet). -/
structure FactSheetUpdate where
  scam_name : Option String := none
  story_hook : Option String := none
  red_flag : Option String := none
  the_fix : Option String := none
  reference_sources : Option (List String) := none
  category : Option ScamCategoryL := none
  global_ancestry : Option String := none
  psychological_exploit : Option String := none
  victim_profile : Option String := none
  counter_hack : Option String := none
deriving DecidableEq

def applyFactSheetUpdate (fs : FactSheetL) (u : FactSheetUpdate) : FactSheetL :=
  { fs with
    scam_name := u.scam_name.getD fs.scam_name
    story_hook := u.story_hook.getD fs.story_hook
    red_flag := u.red_flag.getD fs.red_flag
    the_fix := u.the_fix.getD fs.the_fix
    reference_sources := u.reference_sources.getD fs.reference_sources
    category := u.category.getD fs.category
    global_ancestry := (u.global_ancestry.map some).getD fs.global_ancestry
    psychological_exploit := (u.psychological_exploit.map some).getD fs.psychological_exploit
    victim_profile := (u.victim_profile.map some).getD fs.victim_profile
    counter_hack := (u.counter_hack.map some).getD fs.counter_hack }

/-- `PipelineOrchestrator.verify_fact_sheet` (with an active session): apply
corrections if any, mark verified via `FactSheet.verify`, and commit the
verified sheet with status `COMPLETED`. -/
def verifyFactSheet (st : PStateL) (fs : FactSheetL) (officer_id : String)
    (notes : Option String) (corrections : Option FactSheetUpdate) (now : Nat) :
    PStateL × FactSheetL :=
  let fs1 :=
    match corrections with
    | some u => applyFactSheetUpdate fs u
    | none => fs
  let verified := fs1.verify officer_id notes now
  ({ st with fact_sheet := some verified, fact_sheet_status := .completed }, verified)

/-- `PipelineOrchestrator.generate_script` (with an active session): the
verification gate is checked before any state write and before any agent
interaction (`raise ValueError` first); then the Director Agent runs and the
output slot is committed only when its result reports success. The returned
`Nat` counts LLM calls made. -/
def generateScript (st : PStateL) (fs : FactSheetL) (cc : CreatorConfigL)
    (modelName : String) (llm : Nat → Except PyExn String) :
    PStateL × Except PyExn (Option DirectorOutputL) × Nat :=
  if ¬ fs.verified_by_officer then
    (st, .error ⟨.valueError, "Fact Sheet must be verified before script generation"⟩, 0)
  else
    let st1 := { st with creator_config := some cc, director_status := .inProgress }
    -- DirectorInput.primary language: creator_config.languages[0]
    -- (pydantic `min_length=1` guarantees the list is non-empty).
    let lang := cc.languages.headD .english
    let (result, calls) := directorProcess fs lang modelName llm
    if ¬ result.success then
      ({ st1 with director_status := .failed },
       .error ⟨.runtimeError, "Director Agent failed: " ++ (result.error.getD "None")⟩, calls)
    else
      ({ st1 with director_output := result.output, director_status := .completed },
       .ok result.output, calls)

/-! ## Chat refinement (pipeline.py chat_refine) -/

def pyFindChar (cs : List Char) (c : Char) : Int :=
  match cs.findIdx? (· = c) with
  | some i => (i : Int)
  | none => -1

def pyRFindChar (cs : List Char) (c : Char) : Int :=
  match cs.reverse.findIdx? (· = c) with
  | some rj => (cs.length : Int) - 1 - rj
  | none => -1

/-- Python slice `cs[a:b]` with negative-index normalisation. -/
def pySliceL (cs : List Char) (a b : Int) : List Char :=
  let n : Int := cs.length
  let norm (i : Int) : Nat := (if i < 0 then max (n + i) 0 else min i n).toNat
  (cs.take (norm b)).drop (norm a)

/-- `model_copy(update=result["updated_fields"])` on the fact sheet: string
values update the corresponding string fields; update values of other JSON
types would produce an ill-typed (unvalidated) pydantic object and are not
representable in the typed model, so they leave the field unchanged. -/
def applyJsonUpdateFS (fs : FactSheetL) (fields : List (String × JVal)) : FactSheetL :=
  fields.foldl (fun acc kv =>
    match kv with
    | ("scam_name", .jstr s) => { acc with scam_name := s }
    | ("story_hook", .jstr s) => { acc with story_hook := s }
    | ("red_flag", .jstr s) => { acc with red_flag := s }
    | ("the_fix", .jstr s) => { acc with the_fix := s }
    | ("global_ancestry", .jstr s) => { acc with global_ancestry := some s }
    | ("psychological_exploit", .jstr s) => { acc with psychological_exploit := some s }
    | ("victim_profile", .jstr s) => { acc with victim_profile := some s }
    | ("counter_hack", .jstr s) => { acc with counter_hack := some s }
    | _ => acc) fs

/-- `PipelineOrchestrator._refine_fact_sheet_via_chat` after the LLM call:
slice from the first `{` to the last `}` (Python `find`/`rfind` semantics),
`json.loads`, then apply `updated_fields` when truthy. Returns the updated
state and the `response` JSON value (or the fallback message on a decode
error). -/
def refineViaChat (st : PStateL) (fs : FactSheetL) (responseText : String) :
    PStateL × Except PyExn (JVal × FactSheetL) :=
  let cs := responseText.toList
  let jsonStart := pyFindChar cs '{'
  let jsonEnd := pyRFindChar cs '}' + 1
  match jsonLoads (String.mk (pySliceL cs jsonStart jsonEnd)) with
  | none =>
    (st, .ok (.jstr "I understood your request but couldn't process it. Please try rephrasing.", fs))
  | some result =>
    match result.getField "updated_fields" with
    | some v =>
      if pyTruthy v then
        match v with
        | .jobj fields =>
          let fs1 := applyJsonUpdateFS fs fields
          let st1 := { st with fact_sheet := some fs1 }
          let resp := (result.getField "response").getD (.jstr "Fact sheet updated.")
          (st1, .ok (resp, fs1))
        | _ => (st, .error ⟨.typeError, "update dict expected"⟩)
      else
        let resp := (result.getField "response").getD (.jstr "Fact sheet updated.")
        (st, .ok (resp, fs))
    | none =>
      let resp := (result.getField "response").getD (.jstr "Fact sheet updated.")
      (st, .ok (resp, fs))

/-- The dict returned by `chat_refine`. -/
structure ChatRefineResultL where
  response : String
  updated_content : Option FactSheetL
  chat_history : List ChatMessageL

/-- `PipelineOrchestrator.chat_refine` (with an active session): both
precondition failures (`no fact sheet`, `already verified`) raise before any
chat-history append and before the LLM is called. Returns the resulting
state, the outcome, and the number of LLM calls made. -/
def chatRefine (st : PStateL) (message : String)
    (llmOutcome : Except PyExn String) (now : Nat) :
    PStateL × Except PyExn ChatRefineResultL × Nat :=
  match st.fact_sheet with
  | none =>
    (st, .error ⟨.valueError, "No fact sheet to refine. Call /intake first."⟩, 0)
  | some fs =>
    if fs.verified_by_officer then
      (st, .error ⟨.valueError,
        "Fact sheet already verified. Use /verify with corrections to make changes."⟩, 0)
    else
      let st1 := { st with
        chat_history := st.chat_history ++
          [{ role := "officer", content := message, target := "fact_sheet", timestamp := now }] }
      match llmOutcome with
      | .error e => (st1, .error e, 1)
      | .ok responseText =>
        match refineViaChat st1 fs responseText with
        | (st2, .error e) => (st2, .error e, 1)
        | (st2, .ok (respVal, content)) =>
          match respVal with
          | .jstr agentResponse =>
            let st3 := { st2 with
              chat_history := st2.chat_history ++
                [{ role := "agent", content := agentResponse, target := "fact_sheet", timestamp := now }] }
            let hist := st3.chat_history
            (st3,
             .ok { response := agentResponse
                   updated_content := some content
                   chat_history := hist.drop (hist.length - 6) },
             1)
          | _ => (st2, .error ⟨.other, "validation error: content"⟩, 1)

/-! ## Retry classification and image retry loop (visual_audio_agent.py) -/

def MAX_RETRIES : Nat := 8

/-- `_is_retryable(e)`: `str(e).lower()` contains one of a fixed substring
set: "503", "unavailable", "high demand", "resource_exhausted", "rate". -/
def isRetryable (e : PyExn) : Bool :=
  let s := pyLower e.msg
  ["503", "unavailable", "high demand", "resource_exhausted", "rate"].any
    fun k => strContains s k

/-- One attempt of the image backend: either a response (whose image part may
be absent, yielding `None`) or a raised exception. -/
inductive ImageAttemptOutcome where
  | ok (img : Option String)
  | exn (e : PyExn)

/-- The retry loop of `VisualAudioAgent._call_image_sync`: up to
`MAX_RETRIES` attempts; a retryable exception before the last attempt sleeps
and retries, anything else re-raises immediately. Returns the outcome and the
number of backend attempts made. -/
def callImageSyncLoop (outcomes : Nat → ImageAttemptOutcome) :
    Nat → Nat → Except PyExn (Option String) × Nat
  | _, 0 => (.ok none, 0)
  | attempt, fuel + 1 =>
    match outcomes attempt with
    | .ok img => (.ok img, 1)
    | .exn e =>
      if isRetryable e ∧ attempt < MAX_RETRIES - 1 then
        let (r, n) := callImageSyncLoop outcomes (attempt + 1) fuel
        (r, n + 1)
      else (.error e, 1)

/-- `VisualAudioAgent._call_image_sync` (attempt counter starts at 0). -/
def callImageSync (outcomes : Nat → ImageAttemptOutcome) :
    Except PyExn (Option String) × Nat :=
  callImageSyncLoop outcomes 0 MAX_RETRIES

/-! ## Stepwise visual/audio sub-pipeline (pipeline.py
generate_video_assets_stepwise) -/

/-- The generative backends of the six visual/audio stage methods, abstracted
as pure oracles. Directory arguments are carried so that reused outputs keep
their original paths byte-for-byte. -/
structure VAGen where
  genStory : FactSheetL → List JVal → ObfuscatedScamStoryL
  genScript : ObfuscatedScamStoryL → List JVal → VeoScriptL
  genCharDescs : ObfuscatedScamStoryL → VeoScriptL → CharacterDescriptionsL
  genCharRefs : CharacterDescriptionsL → String → List CharacterRefImageL
  genClipPrompts : VeoScriptL → List JVal
  genClipRefs : VeoScriptL → List CharacterRefImageL → String → List ClipRefEntryL
  genVeoClips : VeoScriptL → List CharacterRefImageL → List ClipRefEntryL → String → List VeoClipEntryL

/-- `_save_va_state`: snapshot the agent state into the pipeline state. -/
def saveVA (st : Option PStateL) (agent : VAStateL) : Option PStateL :=
  st.map fun ps => { ps with visual_audio := some agent }

/-- `generate_video_assets_stepwise`. `st` is the orchestrator session state
(`self._state`), `agent` the Visual/Audio agent's persistent `_state`.
Existing outputs are first copied from the pipeline state into the agent
state (per-field, only when present/non-empty — note `clip_ref_prompts` and
`veo_clips` are NOT copied), the `has_*` flags are computed, then each of the
six stages either reuses the present output or invokes its generator; after
each of the five named checkpoints a `stop_after` match snapshots and
returns. Stage 6 (Veo clips) has no reuse check and always runs when
reached. Returns (pipeline state, agent state, number of stage generator
invocations). -/
def vaStepwise (st : Option PStateL) (agent : VAStateL) (factSheet : FactSheetL)
    (scenes : List JVal) (baseDir : String) (gen : VAGen)
    (stopAfter : Option String) : Option PStateL × VAStateL × Nat :=
  let agent := { agent with output_dir := some baseDir }
  let agent :=
    match st with
    | some ps =>
      (match ps.visual_audio with
       | some ex =>
         { agent with
           obfuscated_story :=
             if ex.obfuscated_story.isSome then ex.obfuscated_story
             else agent.obfuscated_story
           veo_script :=
             if ex.veo_script.isSome then ex.veo_script else agent.veo_script
           character_descriptions :=
             if ex.character_descriptions.isSome then ex.character_descriptions
             else agent.character_descriptions
           character_ref_images :=
             if ¬ ex.character_ref_images.isEmpty then ex.character_ref_images
             else agent.character_ref_images
           clip_ref_images :=
             if ¬ ex.clip_ref_images.isEmpty then ex.clip_ref_images
             else agent.clip_ref_images }
       | none => agent)
    | none => agent
  let st := st.map fun ps => { ps with visual_audio_status := .inProgress }
  -- Stage 1: story
  let (story, agent, n1) :=
    match agent.obfuscated_story with
    | some s => (s, agent, 0)
    | none =>
      let s := gen.genStory factSheet scenes
      (s, { agent with obfuscated_story := some s }, 1)
  if stopAfter = some "story" then (saveVA st agent, agent, n1) else
  -- Stage 2: Veo script
  let (script, agent, n2) :=
    match agent.veo_script with
    | some s => (s, agent, n1)
    | none =>
      let s := gen.genScript story scenes
      (s, { agent with veo_script := some s }, n1 + 1)
  if stopAfter = some "script" then (saveVA st agent, agent, n2) else
  -- Stage 3: character descriptions
  let (charDescs, agent, n3) :=
    match agent.character_descriptions with
    | some d => (d, agent, n2)
    | none =>
      let d := gen.genCharDescs story script
      (d, { agent with character_descriptions := some d }, n2 + 1)
  if stopAfter = some "characters" then (saveVA st agent, agent, n3) else
  -- Stage 4: character reference images
  let (charRefs, agent, n4) :=
    if ¬ agent.character_ref_images.isEmpty then
      (agent.character_ref_images, agent, n3)
    else
      let refs := gen.genCharRefs charDescs (baseDir ++ "/character_refs")
      (refs, { agent with character_ref_images := refs }, n3 + 1)
  if stopAfter = some "char_refs" then (saveVA st agent, agent, n4) else
  -- Stage 5: clip reference frames (the stage method also writes the
  -- clip_ref_prompts slot)
  let (clipRefs, agent, n5) :=
    if ¬ agent.clip_ref_images.isEmpty then
      (agent.clip_ref_images, agent, n4)
    else
      let prompts := gen.genClipPrompts script
      let refs := gen.genClipRefs script charRefs (baseDir ++ "/clip_refs")
      (refs, { agent with clip_ref_prompts := prompts, clip_ref_images := refs }, n4 + 1)
  if stopAfter = some "clip_refs" then (saveVA st agent, agent, n5) else
  -- Stage 6: Veo clips — no reuse check, always regenerated
  let clips := gen.genVeoClips script charRefs clipRefs (baseDir ++ "/veo_clips")
  let agent := { agent with veo_clips := clips }
  let st := st.map fun ps =>
    { ps with visual_audio := some agent, visual_audio_status := .completed }
  (st, agent, n5 + 1)

/-! ## Concrete fixtures for witnesses and counterexamples -/

/-- An unverified fact sheet. -/
def fsUnverified : FactSheetL :=
  { scam_name := "Parcel Delivery Scam"
    story_hook := "A retiree lost RM50k to a fake courier call."
    red_flag := "Caller demands payment to a safe account."
    the_fix := "Hang up and call 997."
    category := .parcelScam }

/-- The same fact sheet after officer verification. -/
def fsVerified : FactSheetL :=
  { fsUnverified with verified_by_officer := true, verification_timestamp := some 5 }

def avatarEx : AvatarConfigL := { id := "officer_malay_male_01", name := "Inspektor Amir" }

def ccEx : CreatorConfigL :=
  { target_groups := ["Elderly"]
    languages := [.english]
    tone := "Urgent/Warning"
    avatar := avatarEx }

def psEx : PStateL := { session_id := "sess-1", fact_sheet := some fsUnverified }

/-! ## Claim theorems -/

/-- C1: for every fact sheet whose verified flag is false, both the
orchestrator's `generate_script` and the Director agent's `process` fail
with the precondition error before any state write and before any LLM call
(the call counter stays at zero). -/
theorem C1_stage_gate (st : PStateL) (fs : FactSheetL) (cc : CreatorConfigL)
    (modelName : String) (llm : Nat → Except PyExn String) (lang : LanguageL)
    (h : fs.verified_by_officer = false) :
    generateScript st fs cc modelName llm =
      (st, .error ⟨.valueError, "Fact Sheet must be verified before script generation"⟩, 0) ∧
    directorProcess fs lang modelName llm =
      ({ success := false
         error := some "Fact Sheet must be verified by officer before script generation"
         model_used := modelName }, 0) := by
  constructor
  · simp [generateScript, h]
  · simp [directorProcess, h]

/-- C1 witness: the gate fires on a concrete unverified fact sheet. -/
theorem C1_stage_gate_witness :
    generateScript psEx fsUnverified ccEx "gemini-2.0-flash" (fun _ => .error ⟨.other, "no api key"⟩) =
      (psEx, .error ⟨.valueError, "Fact Sheet must be verified before script generation"⟩, 0) ∧
    directorProcess fsUnverified .english "gemini-2.0-flash" (fun _ => .error ⟨.other, "no api key"⟩) =
      ({ success := false
         error := some "Fact Sheet must be verified by officer before script generation"
         model_used := "gemini-2.0-flash" }, 0) :=
  C1_stage_gate psEx fsUnverified ccEx "gemini-2.0-flash"
    (fun _ => .error ⟨.other, "no api key"⟩) .english (by rfl)

/-- C3 counterexample: `FactSheet.verify` produces the same record for two
different verifier identifiers — the supplied identifier is not stored in
any field of the result, so no field of the verified record can equal the
supplied identifier for both calls. -/
theorem C3_counterexample :
    FactSheetL.verify fsUnverified "OFC-001" none 7 =
      FactSheetL.verify fsUnverified "OFC-002" none 7 ∧
    "OFC-001" ≠ "OFC-002" := by
  constructor
  · rfl
  · decide

/-- C3 (amended): verifying with no corrections sets `verified_by_officer`
to true and records the verification timestamp (and the notes), both on the
returned record and in the pipeline state; but the verified record is
independent of the supplied verifier identifier — `FactSheet` has no
`verifier_id` field and `verify` only logs the identifier. -/
theorem C3_verify_amended (st : PStateL) (fs : FactSheetL)
    (officer_id other_id : String) (notes : Option String) (now : Nat) :
    (fs.verify officer_id notes now).verified_by_officer = true ∧
    (fs.verify officer_id notes now).verification_timestamp = some now ∧
    (fs.verify officer_id notes now).officer_notes = notes ∧
    fs.verify officer_id notes now = fs.verify other_id notes now ∧
    verifyFactSheet st fs officer_id notes none now =
      ({ st with fact_sheet := some (fs.verify officer_id notes now)
                 fact_sheet_status := .completed },
       fs.verify officer_id notes now) := by
  refine ⟨rfl, rfl, rfl, rfl, ?_⟩
  simp [verifyFactSheet]

/-- C10: chat refinement on an already-verified fact sheet raises before any
mutation: the state (fact sheet and chat history included) is returned
unchanged, the outcome is the `ValueError`, and the LLM call counter is
zero. -/
theorem C10_chat_gate (st : PStateL) (fs : FactSheetL) (msg : String)
    (llmOutcome : Except PyExn String) (now : Nat)
    (hfs : st.fact_sheet = some fs) (hv : fs.verified_by_officer = true) :
    chatRefine st msg llmOutcome now =
      (st, .error ⟨.valueError,
        "Fact sheet already verified. Use /verify with corrections to make changes."⟩, 0) := by
  simp [chatRefine, hfs, hv]

/-- C10 witness: the chat gate fires on a concrete verified session. -/
theorem C10_chat_gate_witness :
    chatRefine { psEx with fact_sheet := some fsVerified } "Make it more urgent"
        (.ok "\x7b\"updated_fields\": \x7b\"story_hook\": \"X\"\x7d, \"response\": \"done\"\x7d") 9 =
      ({ psEx with fact_sheet := some fsVerified },
       .error ⟨.valueError,
         "Fact sheet already verified. Use /verify with corrections to make changes."⟩, 0) :=
  C10_chat_gate { psEx with fact_sheet := some fsVerified } fsVerified
    "Make it more urgent"
    (.ok "\x7b\"updated_fields\": \x7b\"story_hook\": \"X\"\x7d, \"response\": \"done\"\x7d") 9
    (by rfl) (by rfl)

/-- C2 counterexample: on the empty input — where every structural parse
strategy fails and the field regexes extract zero fields — the extraction
operation does NOT fail; it returns a fully fabricated record built from the
placeholder defaults hardcoded in `_repair_json_string`. -/
theorem C2_counterexample :
    researchExtractJson "" =
      JVal.jobj
        [ ("scam_name", .jstr "Unknown Scam"),
          ("story_hook", .jstr "Details unavailable."),
          ("red_flag", .jstr "Be cautious of suspicious requests."),
          ("the_fix", .jstr "Contact authorities immediately."),
          ("reference_sources", .jarr []),
          ("category", .jstr "Other"),
          ("global_ancestry", .jnull),
          ("psychological_exploit", .jnull),
          ("victim_profile", .jnull),
          ("counter_hack", .jnull) ] := by
  rfl

/-- C2 (amended): when every structural strategy fails (direct parse, brace
span, repaired parse), `_extract_json` falls through to the regex repair and
always returns a record — an object with `scam_name` present (placeholder
defaults fill missing fields); it never raises an extraction failure. -/
theorem C2_extraction_never_fails (s : String)
    (h1 : jsonLoads (stripFencesResearch s) = none)
    (h2 : regexBraceSpan (stripFencesResearch s).toList = none)
    (h3 : jsonLoads (fixJson (stripFencesResearch s)) = none) :
    researchExtractJson s = repairJsonString (stripFencesResearch s) ∧
    ∃ fields, researchExtractJson s = JVal.jobj fields := by
  have e1 : researchExtractJson s = researchStrat45 (stripFencesResearch s) := by
    unfold researchExtractJson
    simp only [h1, h2]
  have e2 : researchStrat45 (stripFencesResearch s) =
      repairJsonString (stripFencesResearch s) := by
    unfold researchStrat45
    rw [h3]
  refine ⟨e1.trans e2, ?_⟩
  rw [e1, e2]
  exact ⟨_, rfl⟩

/-- C2 witness: the empty input satisfies all three failure hypotheses and
yields the placeholder record. -/
theorem C2_extraction_never_fails_witness :
    researchExtractJson "" = repairJsonString (stripFencesResearch "") ∧
    ∃ fields, researchExtractJson "" = JVal.jobj fields :=
  C2_extraction_never_fails "" (by rfl) (by rfl) (by rfl)

/-- C9 counterexample: a syntactically well-formed Director response whose
`master_script` string contains one raw tab character is NOT recovered: the
director repair pass escapes only raw newlines, the tab survives, the strict
parse still rejects it, and `parse_response` raises. -/
theorem C9_counterexample :
    directorParseResponse
        "\x7b\"project_id\": \"p\", \"master_script\": \"a\tb\", \"scene_breakdown\": []\x7d"
        .english =
      .error ⟨.valueError, "Failed to parse Director response as JSON"⟩ := by
  rfl

/-- On backslash-free text the control-character walk of `_fix_json` agrees
with exact quote-parity repair: every control character inside a string
literal (as delimited by quote parity) is escaped. -/
theorem fixJsonWalk_eq_spec (cs : List Char) :
    ∀ (inStr : Bool) (prev : Option Char), '\\' ∉ cs → prev ≠ some '\\' →
      fixJsonWalk inStr prev cs = fixJsonSpecWalk inStr cs := by
  induction cs with
  | nil => intro inStr prev _ _; rfl
  | cons c rest ih =>
    intro inStr prev h hp
    have hc : c ≠ '\\' := fun hcon => h (hcon ▸ List.mem_cons_self c rest)
    have hrest : '\\' ∉ rest := fun hm => h (List.mem_cons_of_mem c hm)
    have hnext : (some c : Option Char) ≠ some '\\' :=
      fun hcon => hc (Option.some.inj hcon)
    unfold fixJsonWalk fixJsonSpecWalk
    rw [if_neg (fun hcon => hc hcon.1)]
    by_cases hq : c = '"'
    · rw [if_pos ⟨hq, hp⟩, if_pos hq, ih (!inStr) (some c) hrest hnext]
    · rw [if_neg (fun hcon => hq hcon.1), if_neg hq]
      by_cases hctl : inStr ∧ c.toNat < 32
      · rw [if_pos hctl, if_pos hctl, ih inStr (some c) hrest hnext]
      · rw [if_neg hctl, if_neg hctl, ih inStr (some c) hrest hnext]

/-- C9 (amended): the director's repair (`_fix_truncated_json`) escapes only
raw newlines, so a response whose string value contains a raw tab is left
unparseable and never recovered on the director path. The research repair
(`_fix_json`) escapes raw control characters inside string literals as
determined by its own previous-character quote tracking: on backslash-free
text that tracking is exact quote parity and every in-string control
character is escaped (proved in general), and a record with raw newlines and
tabs in its values is recovered with the whitespace preserved; but the
tracking mis-toggles at a closing quote preceded by an escaped backslash,
after which raw control characters are left unescaped and such text is NOT
recovered — extraction falls through to the all-placeholder fallback. -/
theorem C9_control_char_repair :
    (∀ (inStr : Bool) (cs : List Char), '\\' ∉ cs →
       fixJsonWalk inStr none cs = fixJsonSpecWalk inStr cs) ∧
    researchExtractJson "\x7b\"scam_name\": \"Fake\tParcel\nScam\", \"category\": \"Phishing\"\x7d" =
      .jobj [("scam_name", .jstr "Fake\tParcel\nScam"), ("category", .jstr "Phishing")] ∧
    jsonLoads (fixJson "\x7b\"master_script\": \"a\tb\"\x7d") =
      some (.jobj [("master_script", .jstr "a\tb")]) ∧
    researchExtractJson "\x7b\"a\": \"x\\\\\", \"b\": \"p\tq\"\x7d" =
      JVal.jobj
        [ ("scam_name", .jstr "Unknown Scam"),
          ("story_hook", .jstr "Details unavailable."),
          ("red_flag", .jstr "Be cautious of suspicious requests."),
          ("the_fix", .jstr "Contact authorities immediately."),
          ("reference_sources", .jarr []),
          ("category", .jstr "Other"),
          ("global_ancestry", .jnull),
          ("psychological_exploit", .jnull),
          ("victim_profile", .jnull),
          ("counter_hack", .jnull) ] ∧
    fixTruncatedJson "\x7b\"master_script\": \"a\tb\"\x7d" =
      "\x7b\"master_script\": \"a\tb\"\x7d" ∧
    jsonLoads "\x7b\"master_script\": \"a\tb\"\x7d" = none := by
  refine ⟨fun inStr cs h => fixJsonWalk_eq_spec cs inStr none h (by simp),
    rfl, rfl, rfl, rfl, rfl⟩

/-- C9 witness: the general quote-parity agreement applied to a concrete
backslash-free text containing a raw tab. -/
theorem C9_control_char_repair_witness :
    fixJsonWalk false none ("\x7b\"a\": \"p\tq\"\x7d".toList) =
      fixJsonSpecWalk false ("\x7b\"a\": \"p\tq\"\x7d".toList) :=
  C9_control_char_repair.1 false ("\x7b\"a\": \"p\tq\"\x7d".toList) (by decide)

/-- Soundness of the director boundary scan: a successful scan returns a
prefix of the input that ends in `}` and whose PLAIN brace balance (counting
every `{` and `}`, string literals included) closes the starting count. -/
theorem naiveBraceScan_spec :
    ∀ (l : List Char) (c : Int) (p : List Char), naiveBraceScan c l = some p →
      (∃ p₀, p = p₀ ++ ['}']) ∧
      c + (p.count '{' : Int) = (p.count '}' : Int) ∧ p <+: l := by
  intro l
  induction l with
  | nil => intro c p h; simp [naiveBraceScan] at h
  | cons x xs ih =>
    intro c p h
    unfold naiveBraceScan at h
    by_cases hx : x = '{'
    · rw [if_pos hx] at h
      rcases hmap : naiveBraceScan (c + 1) xs with _ | q
      · rw [hmap] at h; simp at h
      · rw [hmap] at h
        simp at h
        obtain ⟨⟨p₀, hp₀⟩, hbal, hpre⟩ := ih (c + 1) q hmap
        subst h
        subst hx
        refine ⟨⟨'{' :: p₀, by simp [hp₀]⟩, ?_, ?_⟩
        · rw [List.count_cons_self,
            List.count_cons_of_ne (by decide : ('}' : Char) ≠ '{')]
          push_cast
          omega
        · exact List.cons_prefix_cons.mpr ⟨rfl, hpre⟩
    · by_cases hy : x = '}'
      · rw [if_neg hx, if_pos hy] at h
        by_cases hc : c - 1 = 0
        · rw [if_pos hc] at h
          simp at h
          subst h
          subst hy
          refine ⟨⟨[], by simp⟩, ?_, ?_⟩
          · rw [List.count_cons_self,
              List.count_cons_of_ne (by decide : ('{' : Char) ≠ '}')]
            simp only [List.count_nil]
            push_cast
            omega
          · exact List.cons_prefix_cons.mpr ⟨rfl, List.nil_prefix⟩
        · rw [if_neg hc] at h
          rcases hmap : naiveBraceScan (c - 1) xs with _ | q
          · rw [hmap] at h; simp at h
          · rw [hmap] at h
            simp at h
            obtain ⟨⟨p₀, hp₀⟩, hbal, hpre⟩ := ih (c - 1) q hmap
            subst h
            subst hy
            refine ⟨⟨'}' :: p₀, by simp [hp₀]⟩, ?_, ?_⟩
            · rw [List.count_cons_self,
                List.count_cons_of_ne (by decide : ('{' : Char) ≠ '}')]
              push_cast
              omega
            · exact List.cons_prefix_cons.mpr ⟨rfl, hpre⟩
      · rw [if_neg hx, if_neg hy] at h
        rcases hmap : naiveBraceScan c xs with _ | q
        · rw [hmap] at h; simp at h
        · rw [hmap] at h
          simp at h
          obtain ⟨⟨p₀, hp₀⟩, hbal, hpre⟩ := ih c q hmap
          subst h
          refine ⟨⟨x :: p₀, by simp [hp₀]⟩, ?_, ?_⟩
          · rw [List.count_cons_of_ne (fun hcontra => hx hcontra.symm),
              List.count_cons_of_ne (fun hcontra => hy hcontra.symm)]
            exact hbal
          · exact List.cons_prefix_cons.mpr ⟨rfl, hpre⟩

/-- C5 counterexample: the boundary scan does NOT ignore braces inside string
literals. On the valid JSON object `{"a": "x}"}` (value contains `}`), the
scan truncates inside the string literal, and the whole director parse then
fails even though the direct parse of the full text succeeds. -/
theorem C5_counterexample :
    directorExtractJsonFromResponse "\x7b\"a\": \"x\x7d\"\x7d" = "\x7b\"a\": \"x\x7d" ∧
    jsonLoads "\x7b\"a\": \"x\x7d\"\x7d" = some (.jobj [("a", .jstr "x\x7d")]) ∧
    directorParseResponse "\x7b\"a\": \"x\x7d\"\x7d" .english =
      .error ⟨.valueError, "Failed to parse Director response as JSON"⟩ := by
  refine ⟨rfl, rfl, rfl⟩

/-- C5 (amended): the strategies are applied in order, each tried only when
the previous parse fails — a successful direct parse short-circuits both
extractors — and the director boundary scan returns the prefix (from the
first `{`) closed by a PLAIN depth counter that counts every brace,
including braces inside string literals; string/escape state is tracked only
in the later repair passes. -/
theorem C5_strategy_order :
    (∀ (s : String) (v : JVal),
       jsonLoads (stripFencesResearch s) = some v → researchExtractJson s = v) ∧
    (∀ (s : String) (lang : LanguageL) (d : JVal),
       jsonLoads (directorExtractJsonFromResponse s) = some d →
       directorParseResponse s lang = directorBuild d lang) ∧
    (∀ (l : List Char) (c : Int) (p : List Char), naiveBraceScan c l = some p →
       (∃ p₀, p = p₀ ++ ['}']) ∧
       c + (p.count '{' : Int) = (p.count '}' : Int) ∧ p <+: l) := by
  refine ⟨?_, ?_, naiveBraceScan_spec⟩
  · intro s v h
    unfold researchExtractJson
    simp only [h]
  · intro s lang d h
    unfold directorParseResponse
    simp only [h]
    rfl

/-- C5 witness: concrete instantiations of all three parts. -/
theorem C5_strategy_order_witness :
    researchExtractJson "\x7b\"k\": 1\x7d" = .jobj [("k", .jnum "1")] ∧
    directorParseResponse
        "\x7b\"project_id\": \"p\", \"master_script\": \"m\", \"scene_breakdown\": []\x7d" .english =
      directorBuild (.jobj [("project_id", .jstr "p"), ("master_script", .jstr "m"),
        ("scene_breakdown", .jarr [])]) .english ∧
    ((∃ p₀, ['{', '}'] = p₀ ++ ['}']) ∧
       (0 : Int) + ((['{', '}'] : List Char).count '{' : Int) =
         ((['{', '}'] : List Char).count '}' : Int) ∧
       ['{', '}'] <+: ['{', '}']) :=
  ⟨C5_strategy_order.1 "\x7b\"k\": 1\x7d" (.jobj [("k", .jnum "1")]) (by rfl),
   C5_strategy_order.2.1
     "\x7b\"project_id\": \"p\", \"master_script\": \"m\", \"scene_breakdown\": []\x7d" .english
     (.jobj [("project_id", .jstr "p"), ("master_script", .jstr "m"),
       ("scene_breakdown", .jarr [])]) (by rfl),
   C5_strategy_order.2.2 ['{', '}'] 0 ['{', '}'] (by rfl)⟩

/-- `listContains` decides list-infix containment. -/
theorem listContains_iff (hay pat : List Char) :
    listContains hay pat = true ↔ pat <:+: hay := by
  unfold listContains
  rw [List.any_eq_true]
  constructor
  · rintro ⟨i, _, hpre⟩
    rw [List.isPrefixOf_iff_prefix] at hpre
    obtain ⟨t, ht⟩ := hpre
    exact ⟨hay.take i, t, by rw [List.append_assoc, ht, List.take_append_drop]⟩
  · rintro ⟨s, t, rfl⟩
    refine ⟨s.length, ?_, ?_⟩
    · rw [List.mem_range]
      simp [List.length_append]
      omega
    · rw [List.isPrefixOf_iff_prefix, List.append_assoc, List.drop_left]
      exact List.prefix_append pat t

/-- Substring containment is preserved by lowercasing both sides. -/
theorem strContains_lower (s p : String) (h : strContains s p = true) :
    strContains (pyLower s) (pyLower p) = true := by
  rw [strContains, listContains_iff] at h ⊢
  obtain ⟨a, b, hab⟩ := h
  refine ⟨a.map Char.toLower, b.map Char.toLower, ?_⟩
  show a.map Char.toLower ++ p.toList.map Char.toLower ++ b.map Char.toLower =
    s.toList.map Char.toLower
  rw [← List.map_append, ← List.map_append, hab]

/-- A non-retryable first attempt re-raises immediately. -/
theorem callImageSyncLoop_fatal (outcomes : Nat → ImageAttemptOutcome)
    (e : PyExn) (attempt fuel : Nat)
    (h1 : outcomes attempt = .exn e) (h2 : isRetryable e = false) :
    callImageSyncLoop outcomes attempt (fuel + 1) = (.error e, 1) := by
  unfold callImageSyncLoop
  rw [h1]
  simp [h2]

/-- C8: the retry classifier returns retryable whenever the error message
contains "503" or "RESOURCE_EXHAUSTED" (both via the fixed lowercase
substring set), returns fatal when none of the five transient patterns
occurs — e.g. a generic invalid-argument message — and a fatal error is
re-raised by the image retry loop after exactly one attempt. -/
theorem C8_retry_classification :
    (∀ e : PyExn, strContains e.msg "503" = true → isRetryable e = true) ∧
    (∀ e : PyExn, strContains e.msg "RESOURCE_EXHAUSTED" = true → isRetryable e = true) ∧
    (∀ e : PyExn,
      strContains (pyLower e.msg) "503" = false →
      strContains (pyLower e.msg) "unavailable" = false →
      strContains (pyLower e.msg) "high demand" = false →
      strContains (pyLower e.msg) "resource_exhausted" = false →
      strContains (pyLower e.msg) "rate" = false →
      isRetryable e = false) ∧
    isRetryable ⟨.other, "Invalid argument: the request is malformed"⟩ = false ∧
    (∀ (outcomes : Nat → ImageAttemptOutcome) (e : PyExn),
      outcomes 0 = .exn e → isRetryable e = false →
      callImageSync outcomes = (.error e, 1)) := by
  refine ⟨?_, ?_, ?_, ?_, ?_⟩
  · intro e h
    have h2 := strContains_lower e.msg "503" h
    have h3 : pyLower "503" = "503" := rfl
    rw [h3] at h2
    show (["503", "unavailable", "high demand", "resource_exhausted", "rate"].any
      fun k => strContains (pyLower e.msg) k) = true
    rw [List.any_eq_true]
    exact ⟨"503", List.mem_cons_self _ _, h2⟩
  · intro e h
    have h2 := strContains_lower e.msg "RESOURCE_EXHAUSTED" h
    have h3 : pyLower "RESOURCE_EXHAUSTED" = "resource_exhausted" := rfl
    rw [h3] at h2
    show (["503", "unavailable", "high demand", "resource_exhausted", "rate"].any
      fun k => strContains (pyLower e.msg) k) = true
    rw [List.any_eq_true]
    refine ⟨"resource_exhausted", by simp, h2⟩
  · intro e h1 h2 h3 h4 h5
    show (["503", "unavailable", "high demand", "resource_exhausted", "rate"].any
      fun k => strContains (pyLower e.msg) k) = false
    simp only [List.any_cons, List.any_nil, Bool.or_eq_false_iff]
    exact ⟨h1, h2, h3, h4, h5, trivial⟩
  · rfl
  · intro outcomes e h1 h2
    show callImageSyncLoop outcomes 0 MAX_RETRIES = (.error e, 1)
    exact callImageSyncLoop_fatal outcomes e 0 7 h1 h2

/-- C8 witness: concrete instantiations — a 503 message and a
RESOURCE_EXHAUSTED message classified retryable, a message matching no
pattern classified fatal, and a fatal error propagated after one attempt. -/
theorem C8_retry_classification_witness :
    isRetryable ⟨.other, "503 Service Unavailable"⟩ = true ∧
    isRetryable ⟨.other, "Quota error: RESOURCE_EXHAUSTED"⟩ = true ∧
    isRetryable ⟨.valueError, "bad input"⟩ = false ∧
    callImageSync (fun _ => .exn ⟨.other, "Invalid argument: the request is malformed"⟩) =
      (.error ⟨.other, "Invalid argument: the request is malformed"⟩, 1) :=
  ⟨C8_retry_classification.1 ⟨.other, "503 Service Unavailable"⟩ (by rfl),
   C8_retry_classification.2.1 ⟨.other, "Quota error: RESOURCE_EXHAUSTED"⟩ (by rfl),
   C8_retry_classification.2.2.1 ⟨.valueError, "bad input"⟩
     (by rfl) (by rfl) (by rfl) (by rfl) (by rfl),
   C8_retry_classification.2.2.2.2
     (fun _ => .exn ⟨.other, "Invalid argument: the request is malformed"⟩)
     ⟨.other, "Invalid argument: the request is malformed"⟩ (by rfl) (by rfl)⟩

/-- C4: a stage agent's `process` always returns a result value: a failing
LLM call or parse error is recorded in an `AgentResult` with
`success = false` and the error message as a value — the research agent's
catch-all and the director agent's loop handlers normalise every exception;
neither lets one propagate. -/
theorem C4_results_not_exceptions :
    (∀ (input : IntakeL) (mi : String) (o : Except PyExn String),
       (researchProcess input mi o).success = true ∨
       ((researchProcess input mi o).error).isSome = true) ∧
    (∀ (input : IntakeL) (mi : String) (e : PyExn), validateIntake input = true →
       researchProcess input mi (.error e) =
         { success := false, error := some e.msg, model_used := mi }) ∧
    (∀ (fs : FactSheetL) (lang : LanguageL) (m : String)
       (llm : Nat → Except PyExn String),
       (directorProcess fs lang m llm).1.success = true ∨
       ((directorProcess fs lang m llm).1.error).isSome = true) ∧
    (∀ (fs : FactSheetL) (lang : LanguageL) (m : String)
       (llm : Nat → Except PyExn String) (e : PyExn),
       fs.verified_by_officer = true → llm 0 = .error e → e.kind ≠ .valueError →
       directorProcess fs lang m llm =
         ({ success := false, error := some e.msg, model_used := m }, 1)) := by
  refine ⟨?_, ?_, ?_, ?_⟩
  · intro input mi o
    unfold researchProcess researchProcessBody
    by_cases hv : validateIntake input
    · simp only [hv, not_true_eq_false, if_neg, Bool.false_eq_true, ↓reduceIte]
      cases o with
      | error e => simp [Bind.bind, Except.bind, pure, Except.pure]
      | ok r =>
        cases hp : parseResponseResearch r with
        | error e => simp [Bind.bind, Except.bind, Functor.map, Except.map, pure, Except.pure, hp]
        | ok fsheet => simp [Bind.bind, Except.bind, Functor.map, Except.map, pure, Except.pure, hp]
    · simp [hv, pure, Except.pure]
  · intro input mi e hv
    unfold researchProcess researchProcessBody
    simp [hv, Bind.bind, Except.bind, pure, Except.pure]
  · intro fs lang m llm
    unfold directorProcess
    by_cases hv : fs.verified_by_officer
    · simp only [hv, not_true_eq_false, Bool.false_eq_true, ↓reduceIte]
      rcases directorAttempts llm lang 0 3 with ⟨_ | out, _ | err, n⟩ <;> simp
    · simp [hv]
  · intro fs lang m llm e hv hllm hkind
    unfold directorProcess
    have h3 : directorAttempts llm lang 0 3 = (none, some e, 1) := by
      unfold directorAttempts
      rw [hllm]
      simp [hkind]
    simp [hv, h3]

/-- A concrete intake passing validation. -/
def intakeEx : IntakeL :=
  { source_type := "manual_description"
    content := "A retiree lost RM50k to a fake courier call." }

/-- C4 witness: a concrete failing LLM call on a verified fact sheet yields
failure results (with the error recorded) from both agents. -/
theorem C4_results_not_exceptions_witness :
    ((researchProcess intakeEx "m" (.error ⟨.other, "backend down"⟩)).success = true ∨
     ((researchProcess intakeEx "m" (.error ⟨.other, "backend down"⟩)).error).isSome = true) ∧
    researchProcess intakeEx "m" (.error ⟨.other, "backend down"⟩) =
      { success := false, error := some "backend down", model_used := "m" } ∧
    directorProcess fsVerified .english "m" (fun _ => .error ⟨.other, "backend down"⟩) =
      ({ success := false, error := some "backend down", model_used := "m" }, 1) :=
  ⟨C4_results_not_exceptions.1 intakeEx "m" (.error ⟨.other, "backend down"⟩),
   C4_results_not_exceptions.2.1 intakeEx "m" ⟨.other, "backend down"⟩ (by rfl),
   C4_results_not_exceptions.2.2.2 fsVerified .english "m"
     (fun _ => .error ⟨.other, "backend down"⟩) ⟨.other, "backend down"⟩
     (by rfl) (by rfl) (by decide)⟩

/-- C7: a failed stage run leaves every stage output slot of the pipeline
state unchanged — including the failing stage's own output slot — and
changes only the failing stage's status (to FAILED): shown for the script
stage (Director failure) and the intake stage (Research failure). -/
theorem C7_failed_stage_preserves_state
    (st : PStateL) (fs : FactSheetL) (cc : CreatorConfigL) (modelName : String)
    (llm : Nat → Except PyExn String) (intake : IntakeL) (mi : String)
    (lo : Except PyExn String)
    (hv : fs.verified_by_officer = true)
    (hdfail : (directorProcess fs (cc.languages.headD .english) modelName llm).1.success = false)
    (hrfail : (researchProcess intake mi lo).success = false) :
    ((generateScript st fs cc modelName llm).1.fact_sheet = st.fact_sheet ∧
     (generateScript st fs cc modelName llm).1.scam_report = st.scam_report ∧
     (generateScript st fs cc modelName llm).1.director_output = st.director_output ∧
     (generateScript st fs cc modelName llm).1.linguistic_output = st.linguistic_output ∧
     (generateScript st fs cc modelName llm).1.sensitivity_output = st.sensitivity_output ∧
     (generateScript st fs cc modelName llm).1.video_package = st.video_package ∧
     (generateScript st fs cc modelName llm).1.visual_audio = st.visual_audio ∧
     (generateScript st fs cc modelName llm).1.social_output = st.social_output ∧
     (generateScript st fs cc modelName llm).1.intake = st.intake ∧
     (generateScript st fs cc modelName llm).1.chat_history = st.chat_history ∧
     (generateScript st fs cc modelName llm).1.director_status = .failed ∧
     (generateScript st fs cc modelName llm).1.fact_sheet_status = st.fact_sheet_status ∧
     (generateScript st fs cc modelName llm).1.intake_status = st.intake_status ∧
     (generateScript st fs cc modelName llm).1.linguistic_status = st.linguistic_status ∧
     (generateScript st fs cc modelName llm).1.sensitivity_status = st.sensitivity_status ∧
     (generateScript st fs cc modelName llm).1.visual_audio_status = st.visual_audio_status ∧
     (generateScript st fs cc modelName llm).1.social_status = st.social_status) ∧
    ((processIntake st intake mi lo).1.fact_sheet = st.fact_sheet ∧
     (processIntake st intake mi lo).1.scam_report = st.scam_report ∧
     (processIntake st intake mi lo).1.director_output = st.director_output ∧
     (processIntake st intake mi lo).1.linguistic_output = st.linguistic_output ∧
     (processIntake st intake mi lo).1.sensitivity_output = st.sensitivity_output ∧
     (processIntake st intake mi lo).1.video_package = st.video_package ∧
     (processIntake st intake mi lo).1.visual_audio = st.visual_audio ∧
     (processIntake st intake mi lo).1.social_output = st.social_output ∧
     (processIntake st intake mi lo).1.chat_history = st.chat_history ∧
     (processIntake st intake mi lo).1.intake_status = .failed ∧
     (processIntake st intake mi lo).1.fact_sheet_status = st.fact_sheet_status ∧
     (processIntake st intake mi lo).1.director_status = st.director_status) := by
  constructor
  · rcases hdp : directorProcess fs (cc.languages.headD .english) modelName llm with ⟨result, calls⟩
    rw [hdp] at hdfail
    simp only at hdfail
    simp only [generateScript]
    rw [hdp]
    simp [hv, hdfail]
  · unfold processIntake
    simp [hrfail]

/-- C7 witness: a concretely failing Director run and Research run leave the
prior slots of a populated state untouched. -/
theorem C7_failed_stage_preserves_state_witness :
    (((generateScript psEx fsVerified ccEx "m" (fun _ => .error ⟨.other, "backend down"⟩)).1.fact_sheet = psEx.fact_sheet ∧
      (generateScript psEx fsVerified ccEx "m" (fun _ => .error ⟨.other, "backend down"⟩)).1.scam_report = psEx.scam_report ∧
      (generateScript psEx fsVerified ccEx "m" (fun _ => .error ⟨.other, "backend down"⟩)).1.director_output = psEx.director_output ∧
      (generateScript psEx fsVerified ccEx "m" (fun _ => .error ⟨.other, "backend down"⟩)).1.linguistic_output = psEx.linguistic_output ∧
      (generateScript psEx fsVerified ccEx "m" (fun _ => .error ⟨.other, "backend down"⟩)).1.sensitivity_output = psEx.sensitivity_output ∧
      (generateScript psEx fsVerified ccEx "m" (fun _ => .error ⟨.other, "backend down"⟩)).1.video_package = psEx.video_package ∧
      (generateScript psEx fsVerified ccEx "m" (fun _ => .error ⟨.other, "backend down"⟩)).1.visual_audio = psEx.visual_audio ∧
      (generateScript psEx fsVerified ccEx "m" (fun _ => .error ⟨.other, "backend down"⟩)).1.social_output = psEx.social_output ∧
      (generateScript psEx fsVerified ccEx "m" (fun _ => .error ⟨.other, "backend down"⟩)).1.intake = psEx.intake ∧
      (generateScript psEx fsVerified ccEx "m" (fun _ => .error ⟨.other, "backend down"⟩)).1.chat_history = psEx.chat_history ∧
      (generateScript psEx fsVerified ccEx "m" (fun _ => .error ⟨.other, "backend down"⟩)).1.director_status = .failed ∧
      (generateScript psEx fsVerified ccEx "m" (fun _ => .error ⟨.other, "backend down"⟩)).1.fact_sheet_status = psEx.fact_sheet_status ∧
      (generateScript psEx fsVerified ccEx "m" (fun _ => .error ⟨.other, "backend down"⟩)).1.intake_status = psEx.intake_status ∧
      (generateScript psEx fsVerified ccEx "m" (fun _ => .error ⟨.other, "backend down"⟩)).1.linguistic_status = psEx.linguistic_status ∧
      (generateScript psEx fsVerified ccEx "m" (fun _ => .error ⟨.other, "backend down"⟩)).1.sensitivity_status = psEx.sensitivity_status ∧
      (generateScript psEx fsVerified ccEx "m" (fun _ => .error ⟨.other, "backend down"⟩)).1.visual_audio_status = psEx.visual_audio_status ∧
      (generateScript psEx fsVerified ccEx "m" (fun _ => .error ⟨.other, "backend down"⟩)).1.social_status = psEx.social_status) ∧
     ((processIntake psEx intakeEx "m" (.error ⟨.other, "backend down"⟩)).1.fact_sheet = psEx.fact_sheet ∧
      (processIntake psEx intakeEx "m" (.error ⟨.other, "backend down"⟩)).1.scam_report = psEx.scam_report ∧
      (processIntake psEx intakeEx "m" (.error ⟨.other, "backend down"⟩)).1.director_output = psEx.director_output ∧
      (processIntake psEx intakeEx "m" (.error ⟨.other, "backend down"⟩)).1.linguistic_output = psEx.linguistic_output ∧
      (processIntake psEx intakeEx "m" (.error ⟨.other, "backend down"⟩)).1.sensitivity_output = psEx.sensitivity_output ∧
      (processIntake psEx intakeEx "m" (.error ⟨.other, "backend down"⟩)).1.video_package = psEx.video_package ∧
      (processIntake psEx intakeEx "m" (.error ⟨.other, "backend down"⟩)).1.visual_audio = psEx.visual_audio ∧
      (processIntake psEx intakeEx "m" (.error ⟨.other, "backend down"⟩)).1.social_output = psEx.social_output ∧
      (processIntake psEx intakeEx "m" (.error ⟨.other, "backend down"⟩)).1.chat_history = psEx.chat_history ∧
      (processIntake psEx intakeEx "m" (.error ⟨.other, "backend down"⟩)).1.intake_status = .failed ∧
      (processIntake psEx intakeEx "m" (.error ⟨.other, "backend down"⟩)).1.fact_sheet_status = psEx.fact_sheet_status ∧
      (processIntake psEx intakeEx "m" (.error ⟨.other, "backend down"⟩)).1.director_status = psEx.director_status)) :=
  C7_failed_stage_preserves_state psEx fsVerified ccEx "m"
    (fun _ => .error ⟨.other, "backend down"⟩) intakeEx "m"
    (.error ⟨.other, "backend down"⟩) (by rfl) (by rfl) (by rfl)

/-! Fixtures for the visual/audio resumability claims. -/

def exStory : ObfuscatedScamStoryL :=
  { title := "t", summary := "s", story := "st", character_roles := ["a"], solution := "sol" }

def exSegment : ScriptSegmentL :=
  { segment_index := 1, characters_involved := ["a"], veo_prompt := "p" }

def exScript : VeoScriptL := { title := "t", total_duration_sec := 8, segments := [exSegment] }

def exDescs : CharacterDescriptionsL :=
  { characters := [{ role := "a", type := "person", description_for_image_generation := "d" }] }

def exCharRef : CharacterRefImageL :=
  { role := "a", description := "d", filename := "a_2x2_grid.png",
    path := "out/character_refs/a_2x2_grid.png" }

def exClipRef : ClipRefEntryL :=
  { segment_index := 1, frame := "start", filename := "segment_1_start.png",
    path := "out/clip_refs/segment_1_start.png" }

def oldVeoClip : VeoClipEntryL :=
  { segment_index := 1, filename := "old.mp4", path := "out/veo_clips/old.mp4" }

def newVeoClip : VeoClipEntryL :=
  { segment_index := 1, filename := "segment_1.mp4", path := "out/veo_clips/segment_1.mp4" }

def exGen : VAGen :=
  { genStory := fun _ _ => exStory
    genScript := fun _ _ => exScript
    genCharDescs := fun _ _ => exDescs
    genCharRefs := fun _ _ => [exCharRef]
    genClipPrompts := fun _ => []
    genClipRefs := fun _ _ _ => [exClipRef]
    genVeoClips := fun _ _ _ _ => [newVeoClip] }

/-- A visual/audio state with every sub-stage output present, including
already-generated Veo clips. -/
def exFullVA : VAStateL :=
  { obfuscated_story := some exStory
    veo_script := some exScript
    character_descriptions := some exDescs
    character_ref_images := [exCharRef]
    clip_ref_images := [exClipRef]
    veo_clips := [oldVeoClip]
    output_dir := some "out" }

def exVAPS : PStateL := { session_id := "sess-2", visual_audio := some exFullVA }

/-- C6 counterexample: the final sub-stage (Veo clips) is NOT reused. With
every stage output — the Veo clips included — already present in pipeline
state, a full stepwise run still issues one generation call and overwrites
the existing clips with freshly generated ones. -/
theorem C6_counterexample :
    (vaStepwise (some exVAPS) {} fsVerified [] "out" exGen none).2.1.veo_clips = [newVeoClip] ∧
    (vaStepwise (some exVAPS) {} fsVerified [] "out" exGen none).2.2 = 1 ∧
    [newVeoClip] ≠ [oldVeoClip] := by
  refine ⟨rfl, rfl, by decide⟩

/-- C6 (amended): for the five checkpointed sub-stages (story, script,
characters, char_refs, clip_refs) an output already present in state is
reused verbatim with no generation call: re-running up to an already-reached
checkpoint is a no-op with zero generator invocations, and continuing from
`char_refs` to `clip_refs` keeps the character reference images (and their
paths) identical and invokes only the clip-reference stage. The final
Veo-clip stage, however, is always re-executed when reached. -/
theorem C6_stepwise_resumability
    (ps : PStateL) (ag : VAStateL) (fs : FactSheetL) (scenes : List JVal)
    (dir : String) (gen : VAGen)
    (story : ObfuscatedScamStoryL) (script : VeoScriptL)
    (descs : CharacterDescriptionsL) (refs : List CharacterRefImageL)
    (h1 : ag.obfuscated_story = some story)
    (h2 : ag.veo_script = some script)
    (h3 : ag.character_descriptions = some descs)
    (h4 : ag.character_ref_images = refs)
    (h4ne : refs.isEmpty = false)
    (hps : ps.visual_audio = some ag)
    (hdir : ag.output_dir = some dir) :
    vaStepwise (some ps) ag fs scenes dir gen (some "char_refs") =
      (some { ps with visual_audio := some ag, visual_audio_status := .inProgress },
       ag, 0) ∧
    (ag.clip_ref_images = [] →
      vaStepwise (some ps) ag fs scenes dir gen (some "clip_refs") =
        (some { ps with
            visual_audio := some { ag with
              clip_ref_prompts := gen.genClipPrompts script
              clip_ref_images := gen.genClipRefs script refs (dir ++ "/clip_refs") }
            visual_audio_status := .inProgress },
         { ag with
            clip_ref_prompts := gen.genClipPrompts script
            clip_ref_images := gen.genClipRefs script refs (dir ++ "/clip_refs") },
         1)) := by
  obtain ⟨os, vs, cd, cri, crp, cli, vc, od⟩ := ag
  simp only at h1 h2 h3 h4 hdir hps
  subst h1 h2 h3 h4 hdir
  constructor
  · simp [vaStepwise, saveVA, hps, h4ne]
  · intro h5
    simp only at h5
    subst h5
    simp [vaStepwise, saveVA, hps, h4ne]

/-- C6 witness: concrete instantiation — with all five checkpointed outputs
present, re-running to `char_refs` is a no-op with zero calls, and running
on to `clip_refs` regenerates only the clip references. -/
theorem C6_stepwise_resumability_witness :
    vaStepwise (some exVAPS) exFullVA fsVerified [] "out" exGen (some "char_refs") =
      (some { exVAPS with visual_audio := some exFullVA, visual_audio_status := .inProgress },
       exFullVA, 0) :=
  (C6_stepwise_resumability exVAPS exFullVA fsVerified [] "out" exGen
    exStory exScript exDescs [exCharRef]
    (by rfl) (by rfl) (by rfl) (by rfl) (by rfl) (by rfl) (by rfl)).1

end Amaran
